import Mathlib

/-!
# swupd-client, `src/update.c`: the update driver

A shallow embedding of `src/update.c` and the properties of its two drivers,
`update_loop` and `main_update`.

## How the C code is embedded

* A `struct list *` is a Lean `List`; the `NULL` pointer is the empty list, so
  `list_head(l) != NULL` and `l != NULL` both read `l ≠ []`.
* A `struct manifest *` is an `Option manifest`; `NULL` is `none`.
* Every call that leaves `update.c` (transport, staging, renaming, `sync`, `sleep`,
  `printf`, telemetry, ...) appends one `event` to the trace.  An event records the
  arguments of the call and, for a call whose result is used, the result.
* The result of such a call is given by a field of `collaborators`.  It is a function
  of the trace so far (everything that has happened before the call) and of the
  arguments, so a collaborator may answer differently on each call.
* `int` values are integers.  The two places where `update.c` does arithmetic on an
  `int` that can leave the 32-bit range (the doubling of the back-off timeout and the
  negation of a result code) reduce with `wrap_int`.
* `MAX_TRIES`, the `E...` result codes and `download_only` come from headers that are
  not part of `update.c`; they are the fields of `config`.
* A `goto` loop is a recursive function named after its label; the function is the code
  from the label to the point where control leaves the enclosing part of the C function.
* The helpers of `list.c` are their list functions: `list_clone` is the identity,
  `list_prepend_data` is `::`.  `list_sort` with `file_sort_filename` is the field
  `list_sort` of `collaborators`.  `list_free_list` and `free_manifest` are events.
* The elapsed time in the telemetry record is a floating-point value and is left out.
-/

namespace Swupd

/-! ## Data -/

/-- The flags and the name of a `struct file` that `update.c` reads. -/
structure file where
  filename : String
  is_file : Bool
  is_deleted : Bool
  do_not_update : Bool
deriving DecidableEq, Repr

/-- A `struct manifest`: version, component, consolidated file list and the loaded
sub-manifests. -/
inductive manifest where
  | mk (version : Int) (component : String) (files : List file)
      (submanifests : List manifest)

/-- The field `m->files`. -/
def manifest.files : manifest → List file
  | .mk _ _ fs _ => fs

/-- The field `m->submanifests`. -/
def manifest.submanifests : manifest → List manifest
  | .mk _ _ _ ss => ss

/-- The assignment `m->files = fs`. -/
def manifest.set_files : manifest → List file → manifest
  | .mk v c _ ss, fs => .mk v c fs ss

/-- The assignment `m->submanifests = ss`. -/
def manifest.set_submanifests : manifest → List manifest → manifest
  | .mk v c fs _, ss => .mk v c fs ss

/-- A `struct sub`: one subscribed bundle. -/
structure sub where
  component : String
  version : Int
  oldversion : Int
deriving DecidableEq, Repr

/-- The text printed by each `printf` and `fprintf(stderr, ...)` of `update.c`, with the
values of its format arguments. -/
inductive message where
  /-- Line 98: "Staging file content". -/
  | staging_file_content
  /-- Line 114: "File staging failed: %s". -/
  | file_staging_failed (filename : String)
  /-- Line 157: "Starting download retry #%d". -/
  | starting_download_retry (retries : Nat)
  /-- Line 163: "ERROR: Could not download all files, aborting update". -/
  | could_not_download_all_files
  /-- Line 286: "Error: Cannot load mix MoM sub-manifests...continuing without adding mix content". -/
  | cannot_load_mix_submanifests
  /-- Line 308: "Error: Cannot load new mix MoM sub-manifests...continuing without adding mix content". -/
  | cannot_load_new_mix_submanifests
  /-- Line 321: "Cannot find packs for mix content". -/
  | cannot_find_mix_packs
  /-- Line 355: "Updater failed to initialize, exiting now.". -/
  | updater_failed_to_initialize
  /-- Line 365: "Error: Network issue, unable to proceed with update". -/
  | network_issue
  /-- Line 370: "Update started.". -/
  | update_started
  /-- Lines 268, 385: "Version on server (%i) is not newer than system version (%i)". -/
  | version_not_newer (server_version current_version : Int)
  /-- Line 390: "Preparing to update from %i to %i". -/
  | preparing_to_update (current_version server_version : Int)
  /-- Line 395: "Error cleaning download directory". -/
  | error_cleaning_download_directory
  /-- Line 412: "Retry #%d downloading from/to MoM Manifests". -/
  | retry_mom_manifests (retries : Nat)
  /-- Line 431: "Retry #%d downloading server Manifests". -/
  | retry_server_manifests (retries : Nat)
  /-- Lines 415, 434: "Failure retrieving manifest from server". -/
  | failure_retrieving_manifest
  /-- Line 435: "Unable to load manifest after retrying (config or network problem?)". -/
  | unable_to_load_manifest
  /-- Line 452: "Retry #%d downloading current sub-manifests". -/
  | retry_current_submanifests (retries : Nat)
  /-- Line 456: "Cannot load current MoM sub-manifests, exiting". -/
  | cannot_load_current_submanifests
  /-- Line 486: "Retry #%d downloading server sub-manifests". -/
  | retry_server_submanifests (retries : Nat)
  /-- Line 490: "Error: Cannot load server MoM sub-manifests, exiting". -/
  | cannot_load_server_submanifests
  /-- Line 524: "Retry #%d downloading packs". -/
  | retry_packs (retries : Nat)
  /-- Line 527: "No network, or server unavailable for pack downloads". -/
  | no_network_for_packs
  /-- Line 567: "Update was applied.". -/
  | update_was_applied
  /-- Line 601: "Update took %0.1f seconds"; the elapsed time is not modelled. -/
  | update_took
  /-- Line 608: "Update successful. System updated from version %d to version %d". -/
  | update_successful (current_version server_version : Int)
  /-- Line 611: "Update complete. System already up-to-date at version %d". -/
  | already_up_to_date (current_version : Int)
  /-- Line 615: "%i files were not in a pack". -/
  | files_not_in_pack (nonpack : Int)
deriving DecidableEq, Repr

/-- One call that leaves `update.c`, with its arguments and, where the caller uses it,
its result. -/
inductive event where
  | sleep (seconds : Int)
  | printf (m : message)
  | fprintf_stderr (m : message)
  | try_delta (f : file)
  | full_download (f : file)
  | start_full_download (pipelining : Bool) (err : Int)
  | end_full_download (failed : List file)
  | list_free_list (l : List file)
  | clean_curl_multi_queue
  | set_mix_globals
  | do_staging (f : file) (m : Option manifest) (ret : Int)
  | sync
  | rename_all_files_to_final (updates : List file) (ret : Int)
  | srand_time
  | swupd_init (ret : Int) (lock_fd : Int)
  | init_timelist
  | clock_gettime
  | grabtime_start (name : String)
  | grabtime_stop
  | check_network (ok : Bool)
  | read_subscriptions_alt (subs : List sub)
  | read_mix_subscriptions (subs : List sub)
  | check_versions (ret : Int) (current_version server_version : Int)
  | rm_staging_dir_contents (dir : String) (ret : Int)
  | load_mom (version : Int) (m : Option manifest)
  | load_mix_mom (version : Int) (m : Option manifest)
  | recurse_manifest (m : manifest) (subs : List sub) (submanifests : List manifest)
  | files_from_bundles (submanifests : List manifest) (files : List file)
  | consolidate_files (files : List file) (consolidated : List file)
  | set_subscription_versions (latest current : Option manifest) (subs : List sub)
      (subs_after : List sub)
  | link_submanifests (current latest : Option manifest) (subs1 subs2 : List sub)
      (server : Bool)
  | add_subscriptions (bundles : List String) (subs : List sub) (current : Int)
      (mom : Option manifest) (recursion : Int) (ret : Int) (subs_after : List sub)
  | list_free_strings (l : List String)
  | link_manifests (m1 m2 : Option manifest)
  | run_preupdate_scripts (m : Option manifest)
  | download_subscribed_packs (subs : List sub) (required : Bool) (ret : Int)
  | create_update_list (current server : Option manifest) (updates : List file)
  | link_renames (updates : List file) (from_manifest : Option manifest)
  | print_statistics (version1 version2 : Int)
  | check_mix_exists (ok : Bool)
  | update_device_latest_version (version : Int)
  | delete_motd
  | run_scripts
  | free_manifest (m : Option manifest)
  | telemetry (critical : Bool) (current_version server_version result : Int)
  | print_time_stats
  | swupd_deinit (lock_fd : Int) (subs : List sub)

/-- The results of the calls that leave `update.c`.  Each is a function of the trace at
the moment of the call and of the arguments. -/
structure collaborators where
  start_full_download : List event → Bool → Int
  end_full_download : List event → List file
  do_staging : List event → file → Option manifest → Int
  rename_all_files_to_final : List event → List file → Int
  swupd_init : List event → Int × Int
  check_network : List event → Bool
  read_subscriptions_alt : List event → List sub
  read_mix_subscriptions : List event → List sub → List sub
  check_versions : List event → Int → Int → Int × Int × Int
  rm_staging_dir_contents : List event → String → Int
  load_mom : List event → Int → Option manifest
  load_mix_mom : List event → Int → Option manifest
  recurse_manifest : List event → manifest → List sub → List manifest
  files_from_bundles : List event → List manifest → List file
  consolidate_files : List event → List file → List file
  set_subscription_versions : List event → Option manifest → Option manifest →
    List sub → List sub
  add_subscriptions : List event → List String → List sub → Int → Option manifest →
    Int → Int × List sub
  download_subscribed_packs : List event → List sub → Bool → Int
  create_update_list : List event → Option manifest → Option manifest → List file
  list_sort : List file → List file
  check_mix_exists : List event → Bool
  nonpack : List event → Int

/-- The constants and the global flag that `update.c` takes from its headers. -/
structure config where
  MAX_TRIES : Nat
  download_only : Bool
  EXIT_FAILURE : Int
  EMOM_NOTFOUND : Int
  ERECURSE_MANIFEST : Int
  EMANIFEST_LOAD : Int
  ENOSWUPDSERVER : Int

/-- The value of `EXIT_SUCCESS`. -/
def EXIT_SUCCESS : Int := 0

/-- Reduction of an integer to the range of a 32-bit `int`. -/
def wrap_int (x : Int) : Int := (x + 2 ^ 31) % 2 ^ 32 - 2 ^ 31

/-- The conversion of an `int` to the `unsigned int` that `sleep` takes. -/
def to_unsigned (x : Int) : Int := x % 2 ^ 32

/-! ## `update_loop` and its helpers (lines 41-231) -/

/-- `increment_retries` (lines 41-46): count the retry, sleep for the current timeout,
double the timeout. -/
def increment_retries (retries : Nat) (timeout : Int) (tr : List event) :
    Nat × Int × List event :=
  (retries + 1, wrap_int (timeout * 2), tr ++ [event.sleep (to_unsigned timeout)])

/-- `try_delta_loop` (lines 48-64): `try_delta` on every entry with `is_file`. -/
def try_delta_loop (updates : List file) (tr : List event) : List event :=
  match updates with
  | [] => tr
  | f :: iter =>
    if !f.is_file then try_delta_loop iter tr
    else try_delta_loop iter (tr ++ [event.try_delta f])

/-- The `while` loop of `full_download_loop` (lines 71-81). -/
def full_download_loop_while (updates : List file) (tr : List event) : List event :=
  match updates with
  | [] => tr
  | f :: iter =>
    if f.is_deleted then full_download_loop_while iter tr
    else full_download_loop_while iter (tr ++ [event.full_download f])

/-- `full_download_loop` (lines 66-88): queue every entry that is not deleted, free the
list when it is a list of failures, and return what `end_full_download` reports. -/
def full_download_loop (c : collaborators) (updates : List file) (isfailed : Int)
    (tr : List event) : List file × List event :=
  let tr := full_download_loop_while updates tr
  let tr := if isfailed ≠ 0 then tr ++ [event.list_free_list updates] else tr
  let failed := c.end_full_download tr
  (failed, tr ++ [event.end_full_download failed])

/-- The `while` loop of `stage_content` (lines 99-117). -/
def stage_content_while (c : collaborators) (updates : List file) (m : Option manifest)
    (tr : List event) : Int × List event :=
  match updates with
  | [] => (0, tr)
  | f :: iter =>
    if f.do_not_update || f.is_deleted then stage_content_while c iter m tr
    else
      let ret := c.do_staging tr f m
      let tr := tr ++ [event.do_staging f m ret]
      if ret < 0 then
        (ret, tr ++ [event.printf (message.file_staging_failed f.filename)])
      else stage_content_while c iter m tr

/-- `stage_content` (lines 90-119). -/
def stage_content (c : collaborators) (updates : List file) (m : Option manifest)
    (tr : List event) : Int × List event :=
  stage_content_while c updates m (tr ++ [event.printf message.staging_file_content])

/-- How control leaves the `TRY_DOWNLOAD` block of `update_loop`. -/
inductive download_exit where
  /-- `return err` at line 136. -/
  | returned (err : Int)
  /-- Control falls through to line 162 with these values of the locals. -/
  | fell_through (failed : List file) (retries : Nat) (timeout : Int)

/-- The block of `update_loop` under the label `TRY_DOWNLOAD` (lines 133-160), entered
with the current values of `failed`, `retries` and `timeout`. -/
def TRY_DOWNLOAD (cfg : config) (c : collaborators) (updates : List file)
    (failed : List file) (retries : Nat) (timeout : Int) (tr : List event) :
    download_exit × List event :=
  let err := c.start_full_download tr true
  let tr := tr ++ [event.start_full_download true err]
  if err ≠ 0 then (download_exit.returned err, tr)
  else
    let r :=
      if failed ≠ [] then full_download_loop c failed 1 (try_delta_loop failed tr)
      else full_download_loop c updates 0 (try_delta_loop updates tr)
    if _h : r.1 ≠ [] ∧ retries < cfg.MAX_TRIES then
      let s := increment_retries retries timeout r.2
      TRY_DOWNLOAD cfg c updates r.1 s.1 s.2.1
        (s.2.2 ++ [event.printf (message.starting_download_retry s.1),
          event.clean_curl_multi_queue])
    else (download_exit.fell_through r.1 retries timeout, r.2)
termination_by cfg.MAX_TRIES - retries
decreasing_by
  simp only [increment_retries]
  omega

/-- The mix download of `update_loop` (lines 170-184).  The result is `some code` when
the function returns `code` from here, `none` when control goes on to line 186. -/
def update_loop_mix_download (c : collaborators) (mix_content : List file)
    (tr : List event) : Option Int × List event :=
  if mix_content ≠ [] then
    let tr := tr ++ [event.set_mix_globals]
    let err := c.start_full_download tr true
    let tr := tr ++ [event.start_full_download true err]
    if err ≠ 0 then (some err, tr)
    else
      let r := full_download_loop c mix_content 0 (try_delta_loop mix_content tr)
      if r.1 ≠ [] then (some (-1), r.2 ++ [event.list_free_list r.1])
      else (none, r.2)
  else (none, tr)

/-- The commit of `update_loop` (lines 212-230): `sync`, rename to final, `sync`. -/
def update_loop_commit (c : collaborators) (updates : List file) (tr : List event) :
    Int × List event :=
  let tr := tr ++ [event.sync]
  let ret := c.rename_all_files_to_final tr updates
  let tr := tr ++ [event.rename_all_files_to_final updates ret]
  if ret ≠ 0 then (ret, tr)
  else (ret, tr ++ [event.sync])

/-- The staging and the commit of `update_loop` (lines 201-230). -/
def update_loop_critical_section (c : collaborators) (updates mix_content : List file)
    (server_manifest mix_manifest : Option manifest) (tr : List event) :
    Int × List event :=
  let staged := stage_content c updates server_manifest tr
  let ret := staged.1
  let tr := staged.2
  if ret < 0 then (ret, tr)
  else if mix_content ≠ [] then
    -- line 206: the result of this call is not assigned to `ret`
    let tr := (stage_content c mix_content mix_manifest tr).2
    if ret < 0 then (ret, tr)
    else update_loop_commit c updates tr
  else update_loop_commit c updates tr

/-- The rest of `update_loop` (lines 162-230), entered when the download loop falls
through. -/
def update_loop_after_download (cfg : config) (c : collaborators)
    (updates mix_content : List file) (server_manifest mix_manifest : Option manifest)
    (failed : List file) (retries : Nat) (tr : List event) : Int × List event :=
  if retries ≥ cfg.MAX_TRIES then
    (-1, tr ++ [event.printf message.could_not_download_all_files,
      event.list_free_list failed])
  else
    match update_loop_mix_download c mix_content tr with
    | (some code, tr) => (code, tr)
    | (none, tr) =>
      if cfg.download_only then (-1, tr)
      else
        update_loop_critical_section c updates mix_content server_manifest mix_manifest tr

/-- `update_loop` (lines 121-231).  `updates_list` and `manifests` are the two-element
arrays of the caller.  Line 126 initialises `mix_content` from `updates_list[0]`. -/
def update_loop (cfg : config) (c : collaborators) (updates_list : List file × List file)
    (manifests : Option manifest × Option manifest) (tr : List event) :
    Int × List event :=
  let failed : List file := []
  let updates := updates_list.1
  let mix_content := updates_list.1
  let server_manifest := manifests.1
  let mix_manifest := manifests.2
  let retries := 0
  let timeout := 10
  match TRY_DOWNLOAD cfg c updates failed retries timeout tr with
  | (download_exit.returned err, tr) => (err, tr)
  | (download_exit.fell_through failed retries _, tr) =>
    update_loop_after_download cfg c updates mix_content server_manifest mix_manifest
      failed retries tr

/-! ## `add_included_manifests` and `setup_mix_update` (lines 233-328) -/

/-- `add_included_manifests` (lines 233-255).  Returns `ret` and the new `*subs`. -/
def add_included_manifests (c : collaborators) (mom : Option manifest) (current : Int)
    (subs : List sub) (tr : List event) : Int × List sub × List event :=
  let subbed : List String := subs.foldl (fun acc s => s.component :: acc) []
  let r := c.add_subscriptions tr subbed subs current mom 0
  let tr := tr ++ [event.add_subscriptions subbed subs current mom 0 r.1 r.2]
  let ret : Int := if r.1 ≥ 0 then 0 else -1
  (ret, r.2, tr ++ [event.list_free_strings subbed])

/-- `setup_mix_update` (lines 257-328).  The manifest and list parameters are passed by
value, so the caller only sees the result code and the two versions. -/
def setup_mix_update (cfg : config) (c : collaborators)
    (curr_mix_version latest_mix_version : Int) (mix_bundles : List sub)
    (tr : List event) : Int × Int × Int × List event :=
  let mix_bundles := c.read_mix_subscriptions tr mix_bundles
  let tr := tr ++ [event.read_mix_subscriptions mix_bundles]
  let v := c.check_versions tr curr_mix_version latest_mix_version
  let ret := v.1
  let curr_mix_version := v.2.1
  let latest_mix_version := v.2.2
  let tr := tr ++ [event.check_versions ret curr_mix_version latest_mix_version]
  if ret < 0 then (ret, curr_mix_version, latest_mix_version, tr)
  else if latest_mix_version ≤ curr_mix_version then
    (curr_mix_version, curr_mix_version, latest_mix_version,
      tr ++ [event.printf (message.version_not_newer latest_mix_version curr_mix_version)])
  else
    let curr := c.load_mix_mom tr curr_mix_version
    let tr := tr ++ [event.load_mix_mom curr_mix_version curr]
    match curr with
    | none => (cfg.EMOM_NOTFOUND, curr_mix_version, latest_mix_version, tr)
    | some curr_mix_mom =>
      let latest := c.load_mix_mom tr latest_mix_version
      let tr := tr ++ [event.load_mix_mom latest_mix_version latest]
      match latest with
      | none => (cfg.EMOM_NOTFOUND, curr_mix_version, latest_mix_version, tr)
      | some latest_mix_mom =>
        let subm := c.recurse_manifest tr curr_mix_mom mix_bundles
        let tr := tr ++ [event.recurse_manifest curr_mix_mom mix_bundles subm]
        let curr_mix_mom := curr_mix_mom.set_submanifests subm
        if subm.isEmpty then
          (cfg.ERECURSE_MANIFEST, curr_mix_version, latest_mix_version,
            tr ++ [event.fprintf_stderr message.cannot_load_mix_submanifests,
              event.free_manifest (some curr_mix_mom),
              event.free_manifest (some latest_mix_mom)])
        else
          let fs := c.files_from_bundles tr curr_mix_mom.submanifests
          let tr := tr ++ [event.files_from_bundles curr_mix_mom.submanifests fs]
          let curr_mix_mom := curr_mix_mom.set_files fs
          let fs := c.consolidate_files tr curr_mix_mom.files
          let tr := tr ++ [event.consolidate_files curr_mix_mom.files fs]
          let curr_mix_mom := curr_mix_mom.set_files fs
          let latest_bundles := mix_bundles
          let subs := c.set_subscription_versions tr (some latest_mix_mom)
            (some curr_mix_mom) latest_bundles
          let tr := tr ++ [event.set_subscription_versions (some latest_mix_mom)
            (some curr_mix_mom) latest_bundles subs]
          let latest_bundles := subs
          let tr := tr ++ [event.link_submanifests (some curr_mix_mom)
            (some latest_mix_mom) mix_bundles latest_bundles false]
          let a := add_included_manifests c (some latest_mix_mom) curr_mix_version
            latest_bundles tr
          let latest_bundles := a.2.1
          let tr := a.2.2
          if a.1 ≠ 0 then
            (cfg.EMANIFEST_LOAD, curr_mix_version, latest_mix_version,
              tr ++ [event.free_manifest (some curr_mix_mom),
                event.free_manifest (some latest_mix_mom)])
          else
            let subm := c.recurse_manifest tr latest_mix_mom latest_bundles
            let tr := tr ++ [event.recurse_manifest latest_mix_mom latest_bundles subm]
            let latest_mix_mom := latest_mix_mom.set_submanifests subm
            if subm.isEmpty then
              (cfg.ERECURSE_MANIFEST, curr_mix_version, latest_mix_version,
                tr ++ [event.fprintf_stderr message.cannot_load_new_mix_submanifests,
                  event.free_manifest (some curr_mix_mom),
                  event.free_manifest (some latest_mix_mom)])
            else
              let fs := c.files_from_bundles tr latest_mix_mom.submanifests
              let tr := tr ++ [event.files_from_bundles latest_mix_mom.submanifests fs]
              let latest_mix_mom := latest_mix_mom.set_files fs
              let fs := c.consolidate_files tr latest_mix_mom.files
              let tr := tr ++ [event.consolidate_files latest_mix_mom.files fs]
              let latest_mix_mom := latest_mix_mom.set_files fs
              let tr := tr ++ [event.link_manifests (some curr_mix_mom)
                (some latest_mix_mom)]
              let ret := c.download_subscribed_packs tr mix_bundles true
              let tr := tr ++ [event.download_subscribed_packs mix_bundles true ret]
              if ret ≠ 0 then
                (cfg.ENOSWUPDSERVER, curr_mix_version, latest_mix_version,
                  tr ++ [event.fprintf_stderr message.cannot_find_mix_packs,
                    event.free_manifest (some curr_mix_mom),
                    event.free_manifest (some latest_mix_mom)])
              else (0, curr_mix_version, latest_mix_version, tr)

/-! ## `main_update` (lines 330-619) -/

/-- The locals of `main_update` that are read after steps 1 to 6. -/
structure main_locals where
  ret : Int
  current_version : Int
  server_version : Int
  updates : List file × List file
  manifests : Option manifest × Option manifest
  current_manifest : Option manifest
  server_manifest : Option manifest
  latest_subs : List sub

/-- Where control is when steps 1 to 6 of `main_update` are over: at one of the two
cleanup labels, or at the call of `update_loop` on line 562. -/
inductive program_point where
  | clean_curl
  | clean_exit
  | line_562
deriving DecidableEq, Repr

/-- The label `download_packs` of `main_update` up to the call of `update_loop`
(lines 517-560): step 5, step 6 and the optional mix setup. -/
def download_packs (cfg : config) (c : collaborators) (current_version server_version : Int)
    (current_manifest server_manifest : manifest) (latest_subs : List sub)
    (retries : Nat) (timeout : Int) (tr : List event) :
    program_point × main_locals × List event :=
  let ret := c.download_subscribed_packs tr latest_subs false
  let tr := tr ++ [event.download_subscribed_packs latest_subs false ret]
  if ret ≠ 0 then
    if _h : retries < cfg.MAX_TRIES then
      let s := increment_retries retries timeout tr
      download_packs cfg c current_version server_version current_manifest
        server_manifest latest_subs s.1 s.2.1
        (s.2.2 ++ [event.printf (message.retry_packs s.1)])
    else
      (program_point.clean_exit,
        { ret := cfg.ENOSWUPDSERVER, current_version := current_version,
          server_version := server_version, updates := ([], []),
          manifests := (none, none), current_manifest := some current_manifest,
          server_manifest := some server_manifest, latest_subs := latest_subs },
        tr ++ [event.printf message.no_network_for_packs])
  else
    let tr := tr ++ [event.grabtime_stop, event.grabtime_start "Create Update List"]
    let updates0 := c.create_update_list tr (some current_manifest) (some server_manifest)
    let tr := tr ++ [event.create_update_list (some current_manifest)
      (some server_manifest) updates0]
    let manifests0 := some server_manifest
    let tr := tr ++ [event.link_renames updates0 (some current_manifest),
      event.print_statistics current_version server_version,
      event.grabtime_stop, event.grabtime_start "Update Loop"]
    let updates0 := c.list_sort updates0
    let mix_exists := c.check_mix_exists tr
    let tr := tr ++ [event.check_mix_exists mix_exists]
    -- lines 553-560; `curr_mix_mom` and `latest_mix_mom` are still `NULL` after the call
    let mix : List file × Option manifest × Int × List event :=
      if mix_exists then
        let m := setup_mix_update cfg c (-1) (-1) [] tr
        let tr := m.2.2.2
        if m.1 = 0 then
          let updates1 := c.create_update_list tr none none
          let tr := tr ++ [event.create_update_list none none updates1]
          (c.list_sort updates1, none, m.1, tr)
        else ([], none, m.1, tr)
      else ([], none, ret, tr)
    (program_point.line_562,
      { ret := mix.2.2.1, current_version := current_version,
        server_version := server_version, updates := (updates0, mix.1),
        manifests := (manifests0, mix.2.1), current_manifest := some current_manifest,
        server_manifest := some server_manifest, latest_subs := latest_subs },
      mix.2.2.2)
termination_by cfg.MAX_TRIES - retries
decreasing_by
  simp only [increment_retries]
  omega

/-- The label `load_server_submanifests` of `main_update` up to the call of
`update_loop` (lines 480-560). -/
def load_server_submanifests (cfg : config) (c : collaborators)
    (current_version server_version : Int) (current_manifest server_manifest : manifest)
    (current_subs latest_subs : List sub) (retries : Nat) (timeout : Int)
    (tr : List event) : program_point × main_locals × List event :=
  let subm := c.recurse_manifest tr server_manifest latest_subs
  let tr := tr ++ [event.recurse_manifest server_manifest latest_subs subm]
  let server_manifest := server_manifest.set_submanifests subm
  if subm.isEmpty then
    if _h : retries < cfg.MAX_TRIES then
      let s := increment_retries retries timeout tr
      load_server_submanifests cfg c current_version server_version current_manifest
        server_manifest current_subs latest_subs s.1 s.2.1
        (s.2.2 ++ [event.printf (message.retry_server_submanifests s.1)])
    else
      (program_point.clean_exit,
        { ret := cfg.ERECURSE_MANIFEST, current_version := current_version,
          server_version := server_version, updates := ([], []),
          manifests := (none, none), current_manifest := some current_manifest,
          server_manifest := some server_manifest, latest_subs := latest_subs },
        tr ++ [event.printf message.cannot_load_server_submanifests])
  else
    let retries := 0
    let timeout := 10
    let fs := c.files_from_bundles tr server_manifest.submanifests
    let tr := tr ++ [event.files_from_bundles server_manifest.submanifests fs]
    let server_manifest := server_manifest.set_files fs
    let fs := c.consolidate_files tr server_manifest.files
    let tr := tr ++ [event.consolidate_files server_manifest.files fs]
    let server_manifest := server_manifest.set_files fs
    let subs := c.set_subscription_versions tr (some server_manifest)
      (some current_manifest) latest_subs
    let tr := tr ++ [event.set_subscription_versions (some server_manifest)
      (some current_manifest) latest_subs subs]
    let latest_subs := subs
    let tr := tr ++ [event.link_submanifests (some current_manifest)
        (some server_manifest) current_subs latest_subs true,
      event.link_manifests (some current_manifest) (some server_manifest),
      event.grabtime_stop,
      event.grabtime_start "Pre-Update Scripts",
      event.run_preupdate_scripts (some server_manifest),
      event.grabtime_stop,
      event.grabtime_start "Download Packs"]
    download_packs cfg c current_version server_version current_manifest server_manifest
      latest_subs retries timeout tr
termination_by cfg.MAX_TRIES - retries
decreasing_by
  simp only [increment_retries]
  omega

/-- The label `load_current_submanifests` of `main_update` up to the call of
`update_loop` (lines 443-560). -/
def load_current_submanifests (cfg : config) (c : collaborators)
    (current_version server_version : Int) (current_manifest server_manifest : manifest)
    (current_subs : List sub) (retries : Nat) (timeout : Int) (tr : List event) :
    program_point × main_locals × List event :=
  let subm := c.recurse_manifest tr current_manifest current_subs
  let tr := tr ++ [event.recurse_manifest current_manifest current_subs subm]
  let current_manifest := current_manifest.set_submanifests subm
  if subm.isEmpty then
    if _h : retries < cfg.MAX_TRIES then
      let s := increment_retries retries timeout tr
      load_current_submanifests cfg c current_version server_version current_manifest
        server_manifest current_subs s.1 s.2.1
        (s.2.2 ++ [event.printf (message.retry_current_submanifests s.1)])
    else
      (program_point.clean_exit,
        { ret := cfg.ERECURSE_MANIFEST, current_version := current_version,
          server_version := server_version, updates := ([], []),
          manifests := (none, none), current_manifest := some current_manifest,
          server_manifest := some server_manifest, latest_subs := [] },
        tr ++ [event.printf message.cannot_load_current_submanifests])
  else
    let retries := 0
    let timeout := 10
    let fs := c.files_from_bundles tr current_manifest.submanifests
    let tr := tr ++ [event.files_from_bundles current_manifest.submanifests fs]
    let current_manifest := current_manifest.set_files fs
    let fs := c.consolidate_files tr current_manifest.files
    let tr := tr ++ [event.consolidate_files current_manifest.files fs]
    let current_manifest := current_manifest.set_files fs
    let latest_subs := current_subs
    let subs := c.set_subscription_versions tr (some server_manifest)
      (some current_manifest) latest_subs
    let tr := tr ++ [event.set_subscription_versions (some server_manifest)
      (some current_manifest) latest_subs subs]
    let latest_subs := subs
    let tr := tr ++ [event.link_submanifests (some current_manifest)
        (some server_manifest) current_subs latest_subs false,
      event.grabtime_start "Add Included Manifests"]
    let a := add_included_manifests c (some server_manifest) current_version latest_subs tr
    let latest_subs := a.2.1
    let tr := a.2.2 ++ [event.grabtime_stop]
    if a.1 ≠ 0 then
      (program_point.clean_exit,
        { ret := cfg.EMANIFEST_LOAD, current_version := current_version,
          server_version := server_version, updates := ([], []),
          manifests := (none, none), current_manifest := some current_manifest,
          server_manifest := some server_manifest, latest_subs := latest_subs },
        tr)
    else
      load_server_submanifests cfg c current_version server_version current_manifest
        server_manifest current_subs latest_subs retries timeout tr
termination_by cfg.MAX_TRIES - retries
decreasing_by
  simp only [increment_retries]
  omega

/-- The label `load_server_mom` of `main_update` up to the call of `update_loop`
(lines 424-560). -/
def load_server_mom (cfg : config) (c : collaborators)
    (current_version server_version : Int) (current_manifest : manifest)
    (current_subs : List sub) (retries : Nat) (timeout : Int) (tr : List event) :
    program_point × main_locals × List event :=
  let tr := tr ++ [event.grabtime_stop,
    event.grabtime_start "Recurse and Consolidate Manifests"]
  let loaded := c.load_mom tr server_version
  let tr := tr ++ [event.load_mom server_version loaded]
  match loaded with
  | none =>
    if _h : retries < cfg.MAX_TRIES then
      let s := increment_retries retries timeout tr
      load_server_mom cfg c current_version server_version current_manifest current_subs
        s.1 s.2.1 (s.2.2 ++ [event.printf (message.retry_server_manifests s.1)])
    else
      (program_point.clean_exit,
        { ret := cfg.EMOM_NOTFOUND, current_version := current_version,
          server_version := server_version, updates := ([], []),
          manifests := (none, none), current_manifest := some current_manifest,
          server_manifest := none, latest_subs := [] },
        tr ++ [event.printf message.failure_retrieving_manifest,
          event.printf message.unable_to_load_manifest])
  | some server_manifest =>
    let retries := 0
    let timeout := 10
    load_current_submanifests cfg c current_version server_version current_manifest
      server_manifest current_subs retries timeout tr
termination_by cfg.MAX_TRIES - retries
decreasing_by
  simp only [increment_retries]
  omega

/-- The label `load_current_mom` of `main_update` up to the call of `update_loop`
(lines 402-560). -/
def load_current_mom (cfg : config) (c : collaborators)
    (current_version server_version : Int) (current_subs : List sub) (retries : Nat)
    (timeout : Int) (tr : List event) : program_point × main_locals × List event :=
  let loaded := c.load_mom tr current_version
  let tr := tr ++ [event.load_mom current_version loaded]
  match loaded with
  | none =>
    if _h : retries < cfg.MAX_TRIES then
      let s := increment_retries retries timeout tr
      load_current_mom cfg c current_version server_version current_subs s.1 s.2.1
        (s.2.2 ++ [event.printf (message.retry_mom_manifests s.1)])
    else
      (program_point.clean_exit,
        { ret := cfg.EMOM_NOTFOUND, current_version := current_version,
          server_version := server_version, updates := ([], []),
          manifests := (none, none), current_manifest := none,
          server_manifest := none, latest_subs := [] },
        tr ++ [event.printf message.failure_retrieving_manifest])
  | some current_manifest =>
    let retries := 0
    let timeout := 10
    load_server_mom cfg c current_version server_version current_manifest current_subs
      retries timeout tr
termination_by cfg.MAX_TRIES - retries
decreasing_by
  simp only [increment_retries]
  omega

/-- Steps 1 to 6 of `main_update` (lines 359-560): from `init_timelist` to the point
where control reaches a cleanup label or the call of `update_loop`. -/
def main_update_steps_1_to_6 (cfg : config) (c : collaborators) (tr : List event) :
    program_point × main_locals × List event :=
  let current_version : Int := -1
  let server_version : Int := -1
  let retries := 0
  let timeout := 10
  let tr := tr ++ [event.init_timelist, event.clock_gettime,
    event.grabtime_start "Main Update"]
  let network := c.check_network tr
  let tr := tr ++ [event.check_network network]
  if !network then
    (program_point.clean_curl,
      { ret := cfg.ENOSWUPDSERVER, current_version := current_version,
        server_version := server_version, updates := ([], []),
        manifests := (none, none), current_manifest := none, server_manifest := none,
        latest_subs := [] },
      tr ++ [event.printf message.network_issue])
  else
    let tr := tr ++ [event.printf message.update_started,
      event.grabtime_start "Update Step 1: get versions"]
    let current_subs := c.read_subscriptions_alt tr
    let tr := tr ++ [event.read_subscriptions_alt current_subs]
    let v := c.check_versions tr current_version server_version
    let ret := v.1
    let current_version := v.2.1
    let server_version := v.2.2
    let tr := tr ++ [event.check_versions ret current_version server_version]
    if ret < 0 then
      (program_point.clean_curl,
        { ret := cfg.EXIT_FAILURE, current_version := current_version,
          server_version := server_version, updates := ([], []),
          manifests := (none, none), current_manifest := none, server_manifest := none,
          latest_subs := [] },
        tr)
    else if server_version ≤ current_version then
      (program_point.clean_curl,
        { ret := EXIT_SUCCESS, current_version := current_version,
          server_version := server_version, updates := ([], []),
          manifests := (none, none), current_manifest := none, server_manifest := none,
          latest_subs := [] },
        tr ++ [event.printf (message.version_not_newer server_version current_version)])
    else
      let tr := tr ++ [event.printf
        (message.preparing_to_update current_version server_version)]
      let rm := c.rm_staging_dir_contents tr "download"
      let tr := tr ++ [event.rm_staging_dir_contents "download" rm]
      if rm ≠ 0 then
        (program_point.clean_curl,
          { ret := cfg.EXIT_FAILURE, current_version := current_version,
            server_version := server_version, updates := ([], []),
            manifests := (none, none), current_manifest := none,
            server_manifest := none, latest_subs := [] },
          tr ++ [event.printf message.error_cleaning_download_directory])
      else
        let tr := tr ++ [event.grabtime_stop, event.grabtime_stop,
          event.grabtime_start "Load Manifests:"]
        load_current_mom cfg c current_version server_version current_subs retries
          timeout tr

/-- Step 7 of `main_update` (lines 562-578): run `update_loop`, turn its result into the
exit status, run the scripts. -/
def main_update_step_7 (cfg : config) (c : collaborators) (l : main_locals)
    (tr : List event) : main_locals × List event :=
  let u := update_loop cfg c l.updates l.manifests tr
  let ret := u.1
  let tr := u.2
  let r : Int × List event :=
    if ret = 0 then
      (ret, tr ++ [event.update_device_latest_version l.server_version,
        event.printf message.update_was_applied])
    else if ret < 0 then (wrap_int (-ret), tr)
    else (ret, tr)
  ({ l with ret := r.1 },
    r.2 ++ [event.delete_motd, event.grabtime_stop, event.grabtime_start "Run Scripts",
      event.run_scripts, event.grabtime_stop])

/-- The code under the label `clean_exit` down to `clean_curl` (lines 580-583). -/
def clean_exit (l : main_locals) (tr : List event) : List event :=
  tr ++ [event.list_free_list l.updates.1, event.free_manifest l.current_manifest,
    event.free_manifest l.server_manifest]

/-- The code under the label `clean_curl` (lines 585-618): telemetry, `swupd_deinit`,
the closing messages, and the return of `ret`. -/
def clean_curl (c : collaborators) (l : main_locals) (lock_fd : Int) (tr : List event) :
    Int × List event :=
  let tr := tr ++ [event.grabtime_stop, event.clock_gettime,
    event.telemetry (l.ret ≠ 0) l.current_version l.server_version l.ret]
  let tr := if l.server_version > l.current_version then
      tr ++ [event.printf message.update_took]
    else tr
  let tr := tr ++ [event.print_time_stats, event.swupd_deinit lock_fd l.latest_subs]
  let tr :=
    if l.current_version < l.server_version ∧ l.ret = 0 then
      tr ++ [event.printf (message.update_successful l.current_version l.server_version)]
    else if l.ret = 0 then
      tr ++ [event.printf (message.already_up_to_date l.current_version)]
    else tr
  let nonpack := c.nonpack tr
  let tr := if nonpack > 0 then tr ++ [event.printf (message.files_not_in_pack nonpack)]
    else tr
  (l.ret, tr)

/-- The start of `main_update` (lines 350-352): `srand` and `swupd_init`.  Returns `ret`,
`lock_fd` and the trace. -/
def main_update_init (c : collaborators) : Int × Int × List event :=
  let tr := [event.srand_time]
  let init := c.swupd_init tr
  (init.1, init.2, tr ++ [event.swupd_init init.1 init.2])

/-- `main_update` (lines 330-619).  Returns the exit status and the trace of the run. -/
def main_update (cfg : config) (c : collaborators) : Int × List event :=
  let init := main_update_init c
  let ret := init.1
  let lock_fd := init.2.1
  let tr := init.2.2
  if ret ≠ 0 then (ret, tr ++ [event.printf message.updater_failed_to_initialize])
  else
    match main_update_steps_1_to_6 cfg c tr with
    | (program_point.clean_curl, l, tr) => clean_curl c l lock_fd tr
    | (program_point.clean_exit, l, tr) => clean_curl c l lock_fd (clean_exit l tr)
    | (program_point.line_562, l, tr) =>
      let s := main_update_step_7 cfg c l tr
      clean_curl c s.1 lock_fd (clean_exit s.1 s.2)

/-! ## Classes of events -/

/-- The returns of `end_full_download`. -/
def is_end_full_download : event → Bool
  | event.end_full_download _ => true
  | _ => false

/-- The calls of `set_mix_globals`. -/
def is_set_mix_globals : event → Bool
  | event.set_mix_globals => true
  | _ => false

/-- The calls of `do_staging`. -/
def is_do_staging : event → Bool
  | event.do_staging _ _ _ => true
  | _ => false

/-- The calls of `sync` and of `rename_all_files_to_final`. -/
def is_sync_or_rename : event → Bool
  | event.sync => true
  | event.rename_all_files_to_final _ _ => true
  | _ => false

/-- The calls of the staging and commit phase: `do_staging`, `sync` and
`rename_all_files_to_final`. -/
def is_commit_event : event → Bool
  | event.do_staging _ _ _ => true
  | event.sync => true
  | event.rename_all_files_to_final _ _ => true
  | _ => false

/-- The calls of `sleep` and the "retry #n" messages that follow them. -/
def is_backoff_event : event → Bool
  | event.sleep _ => true
  | event.printf (message.starting_download_retry _) => true
  | event.printf (message.retry_mom_manifests _) => true
  | event.printf (message.retry_server_manifests _) => true
  | event.printf (message.retry_current_submanifests _) => true
  | event.printf (message.retry_server_submanifests _) => true
  | event.printf (message.retry_packs _) => true
  | _ => false

/-- The telemetry records. -/
def is_telemetry : event → Bool
  | event.telemetry _ _ _ _ => true
  | _ => false

/-- The telemetry records and the calls of `swupd_deinit`. -/
def is_teardown_event : event → Bool
  | event.telemetry _ _ _ _ => true
  | event.swupd_deinit _ _ => true
  | _ => false

/-- The calls of `swupd_init` and `swupd_deinit` and the telemetry records. -/
def is_lifecycle_event : event → Bool
  | event.swupd_init _ _ => true
  | event.telemetry _ _ _ _ => true
  | event.swupd_deinit _ _ => true
  | _ => false

/-- The returns of `check_versions`. -/
def is_check_versions : event → Bool
  | event.check_versions _ _ _ => true
  | _ => false

/-- The calls that load a manifest, open or fill a download session, stage or rename. -/
def is_update_work : event → Bool
  | event.load_mom _ _ => true
  | event.load_mix_mom _ _ => true
  | event.recurse_manifest _ _ _ => true
  | event.download_subscribed_packs _ _ _ => true
  | event.start_full_download _ _ => true
  | event.try_delta _ => true
  | event.full_download _ => true
  | event.do_staging _ _ _ => true
  | event.rename_all_files_to_final _ _ => true
  | _ => false

/-- The events of one download session: `try_delta` only on an entry with `is_file`,
`full_download` only on an entry without `is_deleted`. -/
def is_session_event : event → Bool
  | event.try_delta f => f.is_file
  | event.full_download f => !f.is_deleted
  | event.start_full_download _ _ => true
  | event.end_full_download _ => true
  | event.list_free_list _ => true
  | _ => false

/-- The events of the download loop of `update_loop` (lines 133-160). -/
def is_download_event : event → Bool
  | event.sleep _ => true
  | event.printf (message.starting_download_retry _) => true
  | event.clean_curl_multi_queue => true
  | e => is_session_event e

/-- The events of `update_loop` before staging: the download loop, the mix download and
the message of line 163. -/
def is_transfer_event : event → Bool
  | event.set_mix_globals => true
  | event.printf message.could_not_download_all_files => true
  | e => is_download_event e

/-- The events of `stage_content`. -/
def is_staging_event : event → Bool
  | event.do_staging _ _ _ => true
  | event.printf message.staging_file_content => true
  | event.printf (message.file_staging_failed _) => true
  | _ => false

/-- The events of the critical section of `update_loop` (lines 201-230). -/
def is_critical_event (e : event) : Bool :=
  is_staging_event e || is_sync_or_rename e

/-- The events of `update_loop` after its download loop (lines 162-230). -/
def is_post_download_event : event → Bool
  | event.set_mix_globals => true
  | event.printf message.could_not_download_all_files => true
  | e => is_session_event e || is_critical_event e

/-- The events of `update_loop`. -/
def is_update_loop_event : event → Bool
  | event.sync => true
  | event.rename_all_files_to_final _ _ => true
  | e => is_transfer_event e || is_staging_event e

/-- The events that are neither a back-off event nor a call of `swupd_init` or
`swupd_deinit` nor a telemetry record. -/
def is_quiet_event (e : event) : Bool :=
  !is_backoff_event e && !is_lifecycle_event e

/-- The trace `after` is the trace `before` followed by events of the class `K`. -/
def emits (K : event → Bool) (before after : List event) : Prop :=
  ∃ d, after = before ++ d ∧ ∀ e ∈ d, K e = true

/-- The back-off events of `k` more retries of a stage that has retried `retries` times
and whose timeout is `timeout`: what `increment_retries` and the stage's "retry #n"
message add to the trace. -/
def backoff_seq (retry_message : Nat → message) : Nat → Nat → Int → List event
  | 0, _, _ => []
  | k + 1, retries, timeout =>
    event.sleep (to_unsigned timeout) :: event.printf (retry_message (retries + 1)) ::
      backoff_seq retry_message k (retries + 1) (wrap_int (timeout * 2))

/-- The back-off events of a list of retry stages, each started with `retries = 0` and
`timeout = 10` and each retrying at most `MAX_TRIES` times. -/
def stage_backoffs (MAX_TRIES : Nat) : List (Nat → message) → List event → Prop
  | [], l => l = []
  | m :: ms, l => ∃ k rest, k ≤ MAX_TRIES ∧ l = backoff_seq m k 0 10 ++ rest ∧
      stage_backoffs MAX_TRIES ms rest

/-- What a manifest or pack stage of `main_update` hands over: either control is at
`clean_exit` with one of the four distinguished codes in `ret`, or it is at the call of
`update_loop`. -/
def stage_result_ok (cfg : config) (r : program_point × main_locals × List event) : Prop :=
  (r.1 = program_point.clean_exit ∧
    (r.2.1.ret = cfg.EMOM_NOTFOUND ∨ r.2.1.ret = cfg.ERECURSE_MANIFEST ∨
      r.2.1.ret = cfg.EMANIFEST_LOAD ∨ r.2.1.ret = cfg.ENOSWUPDSERVER)) ∨
  r.1 = program_point.line_562

/-- What is proved of each retry stage of `main_update`, run from its label with the
given `retries` and `timeout` on the trace `tr`, with result `r`: the hand-over is as
`stage_result_ok` says, and the trace grows by events none of which is a call of
`swupd_init` or `swupd_deinit` or a telemetry record, and whose back-off events are those
of `k` retries of this stage (`retries + k ≤ MAX_TRIES`) followed by those of the later
stages. -/
def stage_spec (cfg : config) (retry_message : Nat → message)
    (later : List (Nat → message)) (retries : Nat) (timeout : Int) (tr : List event)
    (r : program_point × main_locals × List event) : Prop :=
  stage_result_ok cfg r ∧
  ∃ d k rest, r.2.2 = tr ++ d ∧ (∀ e ∈ d, is_lifecycle_event e = false) ∧
    retries + k ≤ cfg.MAX_TRIES ∧
    d.filter is_backoff_event = backoff_seq retry_message k retries timeout ++ rest ∧
    stage_backoffs cfg.MAX_TRIES later rest

/-- The run found the system up to date: the first `check_versions` of the trace (the one
of line 378) succeeded and reported a server version that is not newer than the current
version. -/
def already_up_to_date (tr : List event) : Prop :=
  ∃ ret current_version server_version,
    (tr.filter is_check_versions).head? =
      some (event.check_versions ret current_version server_version) ∧
    0 ≤ ret ∧ server_version ≤ current_version

/-- The value that `update_loop` returns to `main_update` on line 562, when the run gets
there. -/
def update_loop_result (cfg : config) (c : collaborators) : Option Int :=
  match main_update_steps_1_to_6 cfg c (main_update_init c).2.2 with
  | (program_point.line_562, l, tr) => some (update_loop cfg c l.updates l.manifests tr).1
  | _ => none

/-- No collaborator whose result `update_loop` returns yields `INT_MIN`, the one `int`
whose negation is not an `int`. -/
def codes_negatable (c : collaborators) : Prop :=
  (∀ tr pipelining, -2 ^ 31 < c.start_full_download tr pipelining) ∧
  (∀ tr f m, -2 ^ 31 < c.do_staging tr f m) ∧
  (∀ tr updates, -2 ^ 31 < c.rename_all_files_to_final tr updates)

/-- What is proved of steps 1 to 6 of `main_update`, run on the trace `tr` with result
`r`: the trace grows by events that are no lifecycle events; the back-off events are those
of the five retry stages; and either no `check_versions` was called and the network check
failed, or the first `check_versions` returned `ret`, `cur`, `srv` and one of these holds:
it failed; the system is up to date and no update work was done; an update is due and
either the download directory could not be cleaned or the retry stages handed over. -/
def steps_result (cfg : config) (tr : List event)
    (r : program_point × main_locals × List event) : Prop :=
  ∃ d, r.2.2 = tr ++ d ∧
    (∀ e ∈ d, is_lifecycle_event e = false) ∧
    stage_backoffs cfg.MAX_TRIES
      [message.retry_mom_manifests, message.retry_server_manifests,
        message.retry_current_submanifests, message.retry_server_submanifests,
        message.retry_packs] (d.filter is_backoff_event) ∧
    ((d.filter is_check_versions = [] ∧ r.1 = program_point.clean_curl ∧
        r.2.1.ret = cfg.ENOSWUPDSERVER) ∨
      ∃ ret cur srv rest,
        d.filter is_check_versions = event.check_versions ret cur srv :: rest ∧
        ((ret < 0 ∧ r.1 = program_point.clean_curl ∧ r.2.1.ret = cfg.EXIT_FAILURE) ∨
          (0 ≤ ret ∧ srv ≤ cur ∧ r.1 = program_point.clean_curl ∧ r.2.1.ret = 0 ∧
            r.2.1.current_version = cur ∧ r.2.1.server_version = srv ∧
            d.filter is_update_work = []) ∨
          (0 ≤ ret ∧ cur < srv ∧
            ((r.1 = program_point.clean_curl ∧ r.2.1.ret = cfg.EXIT_FAILURE) ∨
              stage_result_ok cfg r))))

/-- The back-off of one retry stage that retried `n` times: the sleeps of 10, 20, 40, ...
seconds, each followed by the stage's message with the number of the retry. -/
def backoff_schedule (retry_message : Nat → message) (n : Nat) : List event :=
  (List.range n).flatMap fun k =>
    [event.sleep (10 * 2 ^ k), event.printf (retry_message (k + 1))]

/-! ## Sample inputs -/

/-- A regular file of an update list. -/
def sample_file : file :=
  { filename := "/usr/bin/tool", is_file := true, is_deleted := false,
    do_not_update := false }

/-- A second regular file, for a mix update list. -/
def sample_mix_file : file :=
  { filename := "/usr/bin/local-tool", is_file := true, is_deleted := false,
    do_not_update := false }

/-- An entry that has both `is_file` and `is_deleted` set. -/
def sample_deleted_file : file :=
  { filename := "/usr/bin/old-tool", is_file := true, is_deleted := true,
    do_not_update := false }

/-- A manifest with one bundle. -/
def sample_manifest (version : Int) : manifest :=
  manifest.mk version "MoM" [] []

/-- A configuration with three retries and sample positive result codes. -/
def sample_config : config :=
  { MAX_TRIES := 3, download_only := false, EXIT_FAILURE := 1, EMOM_NOTFOUND := 4,
    ERECURSE_MANIFEST := 13, EMANIFEST_LOAD := 3, ENOSWUPDSERVER := 8 }

/-- Collaborators that never fail: the system is at version 100, the server at 110, one
file changes, there is no mix content. -/
def all_succeed : collaborators :=
  { start_full_download := fun _ _ => 0
    end_full_download := fun _ => []
    do_staging := fun _ _ _ => 0
    rename_all_files_to_final := fun _ _ => 0
    swupd_init := fun _ => (0, 3)
    check_network := fun _ => true
    read_subscriptions_alt := fun _ => [sub.mk "os-core" 100 100]
    read_mix_subscriptions := fun _ subs => subs
    check_versions := fun _ _ _ => (0, 100, 110)
    rm_staging_dir_contents := fun _ _ => 0
    load_mom := fun _ version => some (sample_manifest version)
    load_mix_mom := fun _ version => some (sample_manifest version)
    recurse_manifest := fun _ _ _ => [manifest.mk 110 "os-core" [sample_file] []]
    files_from_bundles := fun _ _ => [sample_file]
    consolidate_files := fun _ files => files
    set_subscription_versions := fun _ _ _ subs => subs
    add_subscriptions := fun _ _ subs _ _ _ => (0, subs)
    download_subscribed_packs := fun _ _ _ => 0
    create_update_list := fun _ _ _ => [sample_file]
    list_sort := fun l => l
    check_mix_exists := fun _ => false
    nonpack := fun _ => 0 }

/-- The first three download sessions each report `sample_file` as failed; the fourth
session (the one after the third retry) reports no failure. -/
def third_retry_succeeds : collaborators :=
  { all_succeed with
    end_full_download := fun tr =>
      if tr.countP is_end_full_download < 3 then [sample_file] else [] }

/-- The upstream download session succeeds; the session opened after `set_mix_globals`
reports `sample_mix_file` as failed. -/
def mix_download_fails : collaborators :=
  { all_succeed with
    end_full_download := fun tr =>
      if tr.any is_set_mix_globals then [sample_mix_file] else [] }

/-- Staging succeeds with the server manifest and fails with the mix manifest, which is
`NULL` here. -/
def mix_staging_fails : collaborators :=
  { all_succeed with
    do_staging := fun _ _ m => if m.isSome then 0 else -1 }

/-- The server is at the version of the system. -/
def up_to_date : collaborators :=
  { all_succeed with check_versions := fun _ _ _ => (0, 100, 100) }

/-- The lock is held by another process: `swupd_init` fails. -/
def init_fails : collaborators :=
  { all_succeed with swupd_init := fun _ => (1, -1) }

/-! ## Traces only grow -/

theorem emits_refl (K : event → Bool) (tr : List event) : emits K tr tr :=
  ⟨[], by simp, by simp⟩

theorem emits_append {K : event → Bool} {tr tr1 : List event} (l : List event)
    (h : emits K tr tr1) (hl : ∀ e ∈ l, K e = true) : emits K tr (tr1 ++ l) := by
  obtain ⟨d, rfl, hd⟩ := h
  refine ⟨d ++ l, by simp, ?_⟩
  intro e he
  rcases List.mem_append.1 he with he | he
  · exact hd e he
  · exact hl e he

theorem emits_trans {K : event → Bool} {tr1 tr2 tr3 : List event}
    (h12 : emits K tr1 tr2) (h23 : emits K tr2 tr3) : emits K tr1 tr3 := by
  obtain ⟨d, rfl, hd⟩ := h12
  obtain ⟨d2, rfl, hd2⟩ := h23
  exact emits_append d2 ⟨d, rfl, hd⟩ hd2

theorem emits_mono {K K2 : event → Bool} {tr1 tr2 : List event}
    (hK : ∀ e, K e = true → K2 e = true) (h : emits K tr1 tr2) : emits K2 tr1 tr2 := by
  obtain ⟨d, rfl, hd⟩ := h
  exact ⟨d, rfl, fun e he => hK e (hd e he)⟩

/-! ## Classes of events -/

theorem download_is_transfer (e : event) (h : is_download_event e = true) :
    is_transfer_event e = true := by
  cases e with
  | printf m =>
    cases m <;>
    simp_all [is_session_event, is_download_event, is_transfer_event, is_staging_event,
      is_critical_event, is_post_download_event, is_update_loop_event, is_commit_event,
      is_do_staging, is_sync_or_rename, is_teardown_event, is_check_versions,
      is_backoff_event, is_set_mix_globals, is_end_full_download]
  | _ =>
    simp_all [is_session_event, is_download_event, is_transfer_event, is_staging_event,
      is_critical_event, is_post_download_event, is_update_loop_event, is_commit_event,
      is_do_staging, is_sync_or_rename, is_teardown_event, is_check_versions,
      is_backoff_event, is_set_mix_globals, is_end_full_download]

theorem transfer_is_update_loop (e : event) (h : is_transfer_event e = true) :
    is_update_loop_event e = true := by
  cases e with
  | printf m =>
    cases m <;>
    simp_all [is_session_event, is_download_event, is_transfer_event, is_staging_event,
      is_critical_event, is_post_download_event, is_update_loop_event, is_commit_event,
      is_do_staging, is_sync_or_rename, is_teardown_event, is_check_versions,
      is_backoff_event, is_set_mix_globals, is_end_full_download]
  | _ =>
    simp_all [is_session_event, is_download_event, is_transfer_event, is_staging_event,
      is_critical_event, is_post_download_event, is_update_loop_event, is_commit_event,
      is_do_staging, is_sync_or_rename, is_teardown_event, is_check_versions,
      is_backoff_event, is_set_mix_globals, is_end_full_download]

theorem staging_is_update_loop (e : event) (h : is_staging_event e = true) :
    is_update_loop_event e = true := by
  cases e with
  | printf m =>
    cases m <;>
    simp_all [is_session_event, is_download_event, is_transfer_event, is_staging_event,
      is_critical_event, is_post_download_event, is_update_loop_event, is_commit_event,
      is_do_staging, is_sync_or_rename, is_teardown_event, is_check_versions,
      is_backoff_event, is_set_mix_globals, is_end_full_download]
  | _ =>
    simp_all [is_session_event, is_download_event, is_transfer_event, is_staging_event,
      is_critical_event, is_post_download_event, is_update_loop_event, is_commit_event,
      is_do_staging, is_sync_or_rename, is_teardown_event, is_check_versions,
      is_backoff_event, is_set_mix_globals, is_end_full_download]

theorem transfer_not_commit (e : event) (h : is_transfer_event e = true) :
    is_commit_event e = false := by
  cases e with
  | printf m =>
    cases m <;>
    simp_all [is_session_event, is_download_event, is_transfer_event, is_staging_event,
      is_critical_event, is_post_download_event, is_update_loop_event, is_commit_event,
      is_do_staging, is_sync_or_rename, is_teardown_event, is_check_versions,
      is_backoff_event, is_set_mix_globals, is_end_full_download]
  | _ =>
    simp_all [is_session_event, is_download_event, is_transfer_event, is_staging_event,
      is_critical_event, is_post_download_event, is_update_loop_event, is_commit_event,
      is_do_staging, is_sync_or_rename, is_teardown_event, is_check_versions,
      is_backoff_event, is_set_mix_globals, is_end_full_download]

theorem staging_commit_is_do_staging (e : event) (h : is_staging_event e = true)
    (hc : is_commit_event e = true) : is_do_staging e = true := by
  cases e with
  | printf m =>
    cases m <;>
    simp_all [is_session_event, is_download_event, is_transfer_event, is_staging_event,
      is_critical_event, is_post_download_event, is_update_loop_event, is_commit_event,
      is_do_staging, is_sync_or_rename, is_teardown_event, is_check_versions,
      is_backoff_event, is_set_mix_globals, is_end_full_download]
  | _ =>
    simp_all [is_session_event, is_download_event, is_transfer_event, is_staging_event,
      is_critical_event, is_post_download_event, is_update_loop_event, is_commit_event,
      is_do_staging, is_sync_or_rename, is_teardown_event, is_check_versions,
      is_backoff_event, is_set_mix_globals, is_end_full_download]

theorem staging_not_sync_or_rename (e : event) (h : is_staging_event e = true) :
    is_sync_or_rename e = false := by
  cases e with
  | printf m =>
    cases m <;>
    simp_all [is_session_event, is_download_event, is_transfer_event, is_staging_event,
      is_critical_event, is_post_download_event, is_update_loop_event, is_commit_event,
      is_do_staging, is_sync_or_rename, is_teardown_event, is_check_versions,
      is_backoff_event, is_set_mix_globals, is_end_full_download]
  | _ =>
    simp_all [is_session_event, is_download_event, is_transfer_event, is_staging_event,
      is_critical_event, is_post_download_event, is_update_loop_event, is_commit_event,
      is_do_staging, is_sync_or_rename, is_teardown_event, is_check_versions,
      is_backoff_event, is_set_mix_globals, is_end_full_download]

theorem transfer_not_sync_or_rename (e : event) (h : is_transfer_event e = true) :
    is_sync_or_rename e = false := by
  cases e with
  | printf m =>
    cases m <;>
    simp_all [is_session_event, is_download_event, is_transfer_event, is_staging_event,
      is_critical_event, is_post_download_event, is_update_loop_event, is_commit_event,
      is_do_staging, is_sync_or_rename, is_teardown_event, is_check_versions,
      is_backoff_event, is_set_mix_globals, is_end_full_download]
  | _ =>
    simp_all [is_session_event, is_download_event, is_transfer_event, is_staging_event,
      is_critical_event, is_post_download_event, is_update_loop_event, is_commit_event,
      is_do_staging, is_sync_or_rename, is_teardown_event, is_check_versions,
      is_backoff_event, is_set_mix_globals, is_end_full_download]

theorem update_loop_not_check_versions (e : event) (h : is_update_loop_event e = true) :
    is_check_versions e = false := by
  cases e with
  | printf m =>
    cases m <;>
    simp_all [is_session_event, is_download_event, is_transfer_event, is_staging_event,
      is_critical_event, is_post_download_event, is_update_loop_event, is_commit_event,
      is_do_staging, is_sync_or_rename, is_teardown_event, is_check_versions,
      is_backoff_event, is_set_mix_globals, is_end_full_download]
  | _ =>
    simp_all [is_session_event, is_download_event, is_transfer_event, is_staging_event,
      is_critical_event, is_post_download_event, is_update_loop_event, is_commit_event,
      is_do_staging, is_sync_or_rename, is_teardown_event, is_check_versions,
      is_backoff_event, is_set_mix_globals, is_end_full_download]

theorem session_is_download (e : event) (h : is_session_event e = true) :
    is_download_event e = true := by
  cases e with
  | printf m =>
    cases m <;>
    simp_all [is_session_event, is_download_event, is_transfer_event, is_staging_event,
      is_critical_event, is_post_download_event, is_update_loop_event, is_commit_event,
      is_do_staging, is_sync_or_rename, is_teardown_event, is_check_versions,
      is_backoff_event, is_set_mix_globals, is_end_full_download]
  | _ =>
    simp_all [is_session_event, is_download_event, is_transfer_event, is_staging_event,
      is_critical_event, is_post_download_event, is_update_loop_event, is_commit_event,
      is_do_staging, is_sync_or_rename, is_teardown_event, is_check_versions,
      is_backoff_event, is_set_mix_globals, is_end_full_download]

theorem session_is_post_download (e : event) (h : is_session_event e = true) :
    is_post_download_event e = true := by
  cases e with
  | printf m =>
    cases m <;>
    simp_all [is_session_event, is_download_event, is_transfer_event, is_staging_event,
      is_critical_event, is_post_download_event, is_update_loop_event, is_commit_event,
      is_do_staging, is_sync_or_rename, is_teardown_event, is_check_versions,
      is_backoff_event, is_set_mix_globals, is_end_full_download]
  | _ =>
    simp_all [is_session_event, is_download_event, is_transfer_event, is_staging_event,
      is_critical_event, is_post_download_event, is_update_loop_event, is_commit_event,
      is_do_staging, is_sync_or_rename, is_teardown_event, is_check_versions,
      is_backoff_event, is_set_mix_globals, is_end_full_download]

theorem critical_is_post_download (e : event) (h : is_critical_event e = true) :
    is_post_download_event e = true := by
  cases e with
  | printf m =>
    cases m <;>
    simp_all [is_session_event, is_download_event, is_transfer_event, is_staging_event,
      is_critical_event, is_post_download_event, is_update_loop_event, is_commit_event,
      is_do_staging, is_sync_or_rename, is_teardown_event, is_check_versions,
      is_backoff_event, is_set_mix_globals, is_end_full_download]
  | _ =>
    simp_all [is_session_event, is_download_event, is_transfer_event, is_staging_event,
      is_critical_event, is_post_download_event, is_update_loop_event, is_commit_event,
      is_do_staging, is_sync_or_rename, is_teardown_event, is_check_versions,
      is_backoff_event, is_set_mix_globals, is_end_full_download]

theorem session_not_backoff (e : event) (h : is_session_event e = true) :
    is_backoff_event e = false := by
  cases e with
  | printf m =>
    cases m <;>
    simp_all [is_session_event, is_download_event, is_transfer_event, is_staging_event,
      is_critical_event, is_post_download_event, is_update_loop_event, is_commit_event,
      is_do_staging, is_sync_or_rename, is_teardown_event, is_check_versions,
      is_backoff_event, is_set_mix_globals, is_end_full_download]
  | _ =>
    simp_all [is_session_event, is_download_event, is_transfer_event, is_staging_event,
      is_critical_event, is_post_download_event, is_update_loop_event, is_commit_event,
      is_do_staging, is_sync_or_rename, is_teardown_event, is_check_versions,
      is_backoff_event, is_set_mix_globals, is_end_full_download]

theorem post_download_not_backoff (e : event) (h : is_post_download_event e = true) :
    is_backoff_event e = false := by
  cases e with
  | printf m =>
    cases m <;>
    simp_all [is_session_event, is_download_event, is_transfer_event, is_staging_event,
      is_critical_event, is_post_download_event, is_update_loop_event, is_commit_event,
      is_do_staging, is_sync_or_rename, is_teardown_event, is_check_versions,
      is_backoff_event, is_set_mix_globals, is_end_full_download]
  | _ =>
    simp_all [is_session_event, is_download_event, is_transfer_event, is_staging_event,
      is_critical_event, is_post_download_event, is_update_loop_event, is_commit_event,
      is_do_staging, is_sync_or_rename, is_teardown_event, is_check_versions,
      is_backoff_event, is_set_mix_globals, is_end_full_download]

theorem critical_not_set_mix_globals_or_end (e : event) (h : is_critical_event e = true) :
    is_set_mix_globals e = false ∧ is_end_full_download e = false := by
  cases e with
  | printf m =>
    cases m <;>
    simp_all [is_session_event, is_download_event, is_transfer_event, is_staging_event,
      is_critical_event, is_post_download_event, is_update_loop_event, is_commit_event,
      is_do_staging, is_sync_or_rename, is_teardown_event, is_check_versions,
      is_backoff_event, is_set_mix_globals, is_end_full_download]
  | _ =>
    simp_all [is_session_event, is_download_event, is_transfer_event, is_staging_event,
      is_critical_event, is_post_download_event, is_update_loop_event, is_commit_event,
      is_do_staging, is_sync_or_rename, is_teardown_event, is_check_versions,
      is_backoff_event, is_set_mix_globals, is_end_full_download]

theorem download_not_set_mix_globals (e : event) (h : is_download_event e = true) :
    is_set_mix_globals e = false := by
  cases e with
  | printf m =>
    cases m <;>
    simp_all [is_session_event, is_download_event, is_transfer_event, is_staging_event,
      is_critical_event, is_post_download_event, is_update_loop_event, is_commit_event,
      is_do_staging, is_sync_or_rename, is_teardown_event, is_check_versions,
      is_backoff_event, is_set_mix_globals, is_end_full_download]
  | _ =>
    simp_all [is_session_event, is_download_event, is_transfer_event, is_staging_event,
      is_critical_event, is_post_download_event, is_update_loop_event, is_commit_event,
      is_do_staging, is_sync_or_rename, is_teardown_event, is_check_versions,
      is_backoff_event, is_set_mix_globals, is_end_full_download]

/-! ## The download helpers -/

theorem try_delta_loop_eq (updates : List file) (tr : List event) :
    try_delta_loop updates tr =
      tr ++ (updates.filter fun f => f.is_file).map event.try_delta := by
  induction updates generalizing tr with
  | nil => simp [try_delta_loop]
  | cons f iter ih =>
    unfold try_delta_loop
    cases hf : f.is_file <;> simp [ih, hf]

theorem full_download_loop_while_eq (updates : List file) (tr : List event) :
    full_download_loop_while updates tr =
      tr ++ (updates.filter fun f => !f.is_deleted).map event.full_download := by
  induction updates generalizing tr with
  | nil => simp [full_download_loop_while]
  | cons f iter ih =>
    unfold full_download_loop_while
    cases hf : f.is_deleted <;> simp [ih, hf]

theorem full_download_loop_trace (c : collaborators) (updates : List file) (isfailed : Int)
    (tr : List event) :
    (full_download_loop c updates isfailed tr).2 =
      tr ++ ((updates.filter fun f => !f.is_deleted).map event.full_download ++
        ((if isfailed ≠ 0 then [event.list_free_list updates] else []) ++
          [event.end_full_download (full_download_loop c updates isfailed tr).1])) := by
  unfold full_download_loop
  by_cases h : isfailed = 0 <;> simp [h, full_download_loop_while_eq]

theorem try_delta_loop_emits (updates : List file) (tr : List event) :
    emits is_session_event tr (try_delta_loop updates tr) := by
  refine ⟨_, try_delta_loop_eq updates tr, ?_⟩
  intro e he
  simp only [List.mem_map] at he
  obtain ⟨f, hf, rfl⟩ := he
  simpa [is_session_event] using (List.mem_filter.1 hf).2

theorem full_download_loop_emits (c : collaborators) (updates : List file)
    (isfailed : Int) (tr : List event) :
    emits is_session_event tr (full_download_loop c updates isfailed tr).2 := by
  refine ⟨_, full_download_loop_trace c updates isfailed tr, ?_⟩
  intro e he
  simp only [List.mem_append, List.mem_map, List.mem_singleton] at he
  rcases he with ⟨f, hf, rfl⟩ | he | rfl
  · simpa [is_session_event] using (List.mem_filter.1 hf).2
  · split_ifs at he
    · simp only [List.mem_singleton] at he
      subst he
      rfl
    · simp at he
  · rfl

theorem stage_content_while_emits (c : collaborators) (updates : List file)
    (m : Option manifest) (tr : List event) :
    emits is_staging_event tr (stage_content_while c updates m tr).2 := by
  induction updates generalizing tr with
  | nil => exact emits_refl _ _
  | cons f iter ih =>
    unfold stage_content_while
    dsimp only
    split_ifs with h1 h2
    · exact ih tr
    · exact emits_append _ (emits_append _ (emits_refl _ _) (by simp [is_staging_event]))
        (by simp [is_staging_event])
    · exact emits_trans (emits_append _ (emits_refl _ _) (by simp [is_staging_event]))
        (ih _)

theorem stage_content_emits (c : collaborators) (updates : List file)
    (m : Option manifest) (tr : List event) :
    emits is_staging_event tr (stage_content c updates m tr).2 := by
  unfold stage_content
  exact emits_trans (emits_append _ (emits_refl _ _) (by simp [is_staging_event]))
    (stage_content_while_emits c updates m _)

theorem TRY_DOWNLOAD_emits (cfg : config) (c : collaborators) (updates : List file) :
    ∀ (n : Nat) (failed : List file) (retries : Nat) (timeout : Int) (tr : List event),
      cfg.MAX_TRIES - retries = n →
      emits is_download_event tr (TRY_DOWNLOAD cfg c updates failed retries timeout tr).2 := by
  intro n
  induction n using Nat.strong_induction_on with
  | _ n ih =>
    intro failed retries timeout tr hn
    have hstart : emits is_download_event tr
        (tr ++ [event.start_full_download true (c.start_full_download tr true)]) :=
      emits_append _ (emits_refl _ _) (by simp [is_download_event, is_session_event])
    have hloop : ∀ l i, emits is_download_event tr
        (full_download_loop c l i (try_delta_loop l
          (tr ++ [event.start_full_download true (c.start_full_download tr true)]))).2 :=
      fun l i => emits_trans hstart (emits_mono session_is_download
        (emits_trans (try_delta_loop_emits _ _) (full_download_loop_emits _ _ _ _)))
    rw [TRY_DOWNLOAD]
    simp only [increment_retries]
    split_ifs with h1 h2 h3 h4
    · exact hstart
    · refine emits_trans ?_ (ih (cfg.MAX_TRIES - (retries + 1)) (by omega) _ _ _ _ rfl)
      exact emits_append _ (emits_append _ (hloop _ _) (by simp [is_download_event, is_session_event]))
        (by simp [is_download_event, is_session_event])
    · exact hloop _ _
    · refine emits_trans ?_ (ih (cfg.MAX_TRIES - (retries + 1)) (by omega) _ _ _ _ rfl)
      exact emits_append _ (emits_append _ (hloop _ _) (by simp [is_download_event, is_session_event]))
        (by simp [is_download_event, is_session_event])
    · exact hloop _ _

/-! ## The parts of `update_loop` -/

theorem update_loop_mix_download_emits (c : collaborators) (mix_content : List file)
    (tr : List event) :
    emits is_transfer_event tr (update_loop_mix_download c mix_content tr).2 := by
  unfold update_loop_mix_download
  dsimp only
  have hstart : emits is_transfer_event tr
      (tr ++ [event.set_mix_globals] ++ [event.start_full_download true
        (c.start_full_download (tr ++ [event.set_mix_globals]) true)]) :=
    emits_append _ (emits_append _ (emits_refl _ _) (by simp [is_transfer_event]))
      (by simp [is_transfer_event, is_download_event, is_session_event])
  have hloop := emits_trans hstart (emits_mono
    (fun e h => download_is_transfer e (session_is_download e h))
    (emits_trans (try_delta_loop_emits mix_content _)
      (full_download_loop_emits c mix_content 0 _)))
  split_ifs with h1 h2 h3
  · exact hstart
  · exact emits_append _ hloop (by simp [is_transfer_event, is_download_event, is_session_event])
  · exact hloop
  · exact emits_refl _ _

theorem update_loop_commit_emits (c : collaborators) (updates : List file)
    (tr : List event) :
    emits is_update_loop_event tr (update_loop_commit c updates tr).2 := by
  unfold update_loop_commit
  dsimp only
  split_ifs with h
  · exact emits_append _ (emits_append _ (emits_refl _ _) (by simp [is_update_loop_event]))
      (by simp [is_update_loop_event])
  · exact emits_append _ (emits_append _ (emits_append _ (emits_refl _ _)
      (by simp [is_update_loop_event])) (by simp [is_update_loop_event]))
      (by simp [is_update_loop_event])

theorem update_loop_critical_section_emits (c : collaborators)
    (updates mix_content : List file) (server_manifest mix_manifest : Option manifest)
    (tr : List event) :
    emits is_update_loop_event tr
      (update_loop_critical_section c updates mix_content server_manifest mix_manifest
        tr).2 := by
  unfold update_loop_critical_section
  dsimp only
  have h1 := emits_mono staging_is_update_loop
    (stage_content_emits c updates server_manifest tr)
  have h2 := emits_trans h1 (emits_mono staging_is_update_loop
    (stage_content_emits c mix_content mix_manifest
      (stage_content c updates server_manifest tr).2))
  split_ifs
  · exact h1
  · exact emits_trans h2 (update_loop_commit_emits _ _ _)
  · exact emits_trans h1 (update_loop_commit_emits _ _ _)

theorem TRY_DOWNLOAD_returned (cfg : config) (c : collaborators) (updates : List file) :
    ∀ (n : Nat) (failed : List file) (retries : Nat) (timeout : Int) (tr : List event),
      cfg.MAX_TRIES - retries = n → ∀ err,
      (TRY_DOWNLOAD cfg c updates failed retries timeout tr).1 = download_exit.returned err →
      err ≠ 0 := by
  intro n
  induction n using Nat.strong_induction_on with
  | _ n ih =>
    intro failed retries timeout tr hn err
    rw [TRY_DOWNLOAD]
    simp only [increment_retries]
    split_ifs with h1 h2 h3 h4
    · intro h
      cases h
      exact h1
    · exact ih (cfg.MAX_TRIES - (retries + 1)) (by omega) _ _ _ _ rfl err
    · intro h
      cases h
    · exact ih (cfg.MAX_TRIES - (retries + 1)) (by omega) _ _ _ _ rfl err
    · intro h
      cases h

theorem update_loop_mix_download_code (c : collaborators) (mix_content : List file)
    (tr : List event) (code : Int)
    (h : (update_loop_mix_download c mix_content tr).1 = some code) : code ≠ 0 := by
  unfold update_loop_mix_download at h
  dsimp only at h
  split_ifs at h with h1 h2 h3
  · cases h
    exact h2
  · cases h
    decide

/-- Either `update_loop` returns a non-zero code before it stages anything, or it is its
critical section run after the downloads. -/
theorem update_loop_split (cfg : config) (c : collaborators)
    (updates_list : List file × List file) (manifests : Option manifest × Option manifest)
    (tr : List event) :
    ((update_loop cfg c updates_list manifests tr).1 ≠ 0 ∧
      emits is_transfer_event tr (update_loop cfg c updates_list manifests tr).2) ∨
    ∃ tr1, emits is_transfer_event tr tr1 ∧
      update_loop cfg c updates_list manifests tr =
        update_loop_critical_section c updates_list.1 updates_list.1 manifests.1
          manifests.2 tr1 := by
  unfold update_loop
  dsimp only
  have hdl := emits_mono download_is_transfer
    (TRY_DOWNLOAD_emits cfg c updates_list.1 _ [] 0 10 tr rfl)
  have hret := TRY_DOWNLOAD_returned cfg c updates_list.1 _ [] 0 10 tr rfl
  rcases hd : TRY_DOWNLOAD cfg c updates_list.1 [] 0 10 tr with ⟨ex, tr1⟩
  rw [hd] at hdl hret
  cases ex with
  | returned err => exact Or.inl ⟨hret err rfl, hdl⟩
  | fell_through failed retries timeout =>
    dsimp only
    unfold update_loop_after_download
    by_cases h1 : retries ≥ cfg.MAX_TRIES
    · rw [if_pos h1]
      left
      exact ⟨by simp, emits_append _ hdl (by simp [is_transfer_event, is_download_event, is_session_event])⟩
    · rw [if_neg h1]
      have hmix := update_loop_mix_download_emits c updates_list.1 tr1
      have hcode := update_loop_mix_download_code c updates_list.1 tr1
      rcases hm : update_loop_mix_download c updates_list.1 tr1 with ⟨code, tr2⟩
      rw [hm] at hmix hcode
      cases code with
      | some code => exact Or.inl ⟨hcode code rfl, emits_trans hdl hmix⟩
      | none =>
        dsimp only
        by_cases h2 : cfg.download_only = true
        · rw [if_pos h2]
          left
          exact ⟨by simp, emits_trans hdl hmix⟩
        · rw [if_neg h2]
          right
          exact ⟨tr2, emits_trans hdl hmix, rfl⟩

theorem update_loop_emits (cfg : config) (c : collaborators)
    (updates_list : List file × List file) (manifests : Option manifest × Option manifest)
    (tr : List event) :
    emits is_update_loop_event tr (update_loop cfg c updates_list manifests tr).2 := by
  rcases update_loop_split cfg c updates_list manifests tr with ⟨_, h⟩ | ⟨tr1, h1, h2⟩
  · exact emits_mono transfer_is_update_loop h
  · rw [h2]
    exact emits_trans (emits_mono transfer_is_update_loop h1)
      (update_loop_critical_section_emits _ _ _ _ _ _)

theorem update_loop_commit_eq (c : collaborators) (updates : List file) (tr : List event) :
    update_loop_commit c updates tr =
      (c.rename_all_files_to_final (tr ++ [event.sync]) updates,
        tr ++ ([event.sync, event.rename_all_files_to_final updates
            (c.rename_all_files_to_final (tr ++ [event.sync]) updates)] ++
          if c.rename_all_files_to_final (tr ++ [event.sync]) updates = 0 then [event.sync]
          else [])) := by
  unfold update_loop_commit
  dsimp only
  by_cases h : c.rename_all_files_to_final (tr ++ [event.sync]) updates = 0 <;> simp [h]

/-- The trace of the critical section: staging events, then nothing (staging failed),
or `sync` and a failed rename, or `sync`, a successful rename and `sync`. -/
theorem update_loop_critical_section_shape (c : collaborators)
    (updates mix_content : List file) (server_manifest mix_manifest : Option manifest)
    (tr : List event) :
    ∃ staged tail,
      (update_loop_critical_section c updates mix_content server_manifest mix_manifest
        tr).2 = tr ++ (staged ++ tail) ∧
      (∀ e ∈ staged, is_staging_event e = true) ∧
      ((tail = [] ∧ (update_loop_critical_section c updates mix_content server_manifest
          mix_manifest tr).1 < 0) ∨
        (∃ r, r ≠ 0 ∧ (update_loop_critical_section c updates mix_content server_manifest
          mix_manifest tr).1 = r ∧
          tail = [event.sync, event.rename_all_files_to_final updates r]) ∨
        ((update_loop_critical_section c updates mix_content server_manifest
          mix_manifest tr).1 = 0 ∧
          tail = [event.sync, event.rename_all_files_to_final updates 0, event.sync])) := by
  obtain ⟨d1, hd1, hk1⟩ := stage_content_emits c updates server_manifest tr
  obtain ⟨d2, hd2, hk2⟩ := stage_content_emits c mix_content mix_manifest
    (stage_content c updates server_manifest tr).2
  have hk12 : ∀ e ∈ d1 ++ d2, is_staging_event e = true := by
    intro e he
    rcases List.mem_append.1 he with he | he
    · exact hk1 e he
    · exact hk2 e he
  have commit : ∀ (staged : List event) (tr1 : List event), tr1 = tr ++ staged →
      (∀ e ∈ staged, is_staging_event e = true) →
      ∃ staged tail, (update_loop_commit c updates tr1).2 = tr ++ (staged ++ tail) ∧
        (∀ e ∈ staged, is_staging_event e = true) ∧
        ((tail = [] ∧ (update_loop_commit c updates tr1).1 < 0) ∨
          (∃ r, r ≠ 0 ∧ (update_loop_commit c updates tr1).1 = r ∧
            tail = [event.sync, event.rename_all_files_to_final updates r]) ∨
          ((update_loop_commit c updates tr1).1 = 0 ∧
            tail = [event.sync, event.rename_all_files_to_final updates 0,
              event.sync])) := by
    intro staged tr1 htr1 hst
    subst htr1
    rw [update_loop_commit_eq]
    simp only [List.append_assoc]
    by_cases hr : c.rename_all_files_to_final (tr ++ (staged ++ [event.sync])) updates = 0
    · exact ⟨staged, [event.sync, event.rename_all_files_to_final updates 0, event.sync],
        by simp [hr, List.append_assoc], hst, Or.inr (Or.inr ⟨hr, rfl⟩)⟩
    · exact ⟨staged, [event.sync, event.rename_all_files_to_final updates
          (c.rename_all_files_to_final (tr ++ (staged ++ [event.sync])) updates)],
        by simp [hr, List.append_assoc], hst, Or.inr (Or.inl ⟨_, hr, rfl, rfl⟩)⟩
  unfold update_loop_critical_section
  dsimp only
  split_ifs with h1 h2
  · exact ⟨d1, [], by simp [hd1], hk1, Or.inl ⟨rfl, h1⟩⟩
  · exact commit (d1 ++ d2) _ (by rw [hd2, hd1, List.append_assoc]) hk12
  · exact commit d1 _ hd1 hk1

theorem sync_before_rename (d : List event)
    (h : d.filter is_sync_or_rename = [] ∨
      ∃ rest, d.filter is_sync_or_rename = event.sync :: rest)
    (a b : List event) (u : List file) (r : Int)
    (hd : d = a ++ event.rename_all_files_to_final u r :: b) : event.sync ∈ a := by
  subst hd
  simp only [List.filter_append, List.filter_cons, is_sync_or_rename, if_true] at h
  rcases h with h | ⟨rest, h⟩
  · simp at h
  · cases hfa : a.filter is_sync_or_rename with
    | nil =>
      rw [hfa] at h
      simp at h
    | cons x xs =>
      rw [hfa] at h
      simp only [List.cons_append, List.cons.injEq] at h
      have hx : x ∈ a.filter is_sync_or_rename := by simp [hfa]
      rw [h.1] at hx
      exact (List.mem_filter.1 hx).1

theorem filter_eq_nil_of_class {K p : event → Bool} (hK : ∀ e, K e = true → p e = false)
    (d : List event) (hd : ∀ e ∈ d, K e = true) : d.filter p = [] := by
  rw [List.filter_eq_nil_iff]
  intro e he
  simp [hK e (hd e he)]

/-- C5.  On every run of `update_loop` the events it adds to the trace satisfy: when the
result is 0, the staging and commit events are some `do_staging` calls followed by
exactly `sync`, `rename_all_files_to_final` (of `updates[0]`, returning 0), `sync`; and on
every run, each `rename_all_files_to_final` call has a `sync` before it. -/
theorem update_loop_sync_rename_sync (cfg : config) (c : collaborators)
    (updates_list : List file × List file) (manifests : Option manifest × Option manifest)
    (tr : List event) :
    ∃ d, (update_loop cfg c updates_list manifests tr).2 = tr ++ d ∧
      ((update_loop cfg c updates_list manifests tr).1 = 0 →
        ∃ staged, (∀ e ∈ staged, is_do_staging e = true) ∧
          d.filter is_commit_event = staged ++
            [event.sync, event.rename_all_files_to_final updates_list.1 0, event.sync]) ∧
      (∀ a b u r, d = a ++ event.rename_all_files_to_final u r :: b → event.sync ∈ a) := by
  rcases update_loop_split cfg c updates_list manifests tr with
    ⟨hne, d, hd, hk⟩ | ⟨tr1, ⟨d1, hd1, hk1⟩, heq⟩
  · refine ⟨d, hd, fun h0 => absurd h0 hne, ?_⟩
    intro a b u r hsplit
    exact sync_before_rename d
      (Or.inl (filter_eq_nil_of_class transfer_not_sync_or_rename d hk)) a b u r hsplit
  · obtain ⟨staged, tail, htr, hst, htail⟩ :=
      update_loop_critical_section_shape c updates_list.1 updates_list.1 manifests.1
        manifests.2 tr1
    rw [heq]
    refine ⟨d1 ++ (staged ++ tail), by rw [htr, hd1, List.append_assoc], ?_, ?_⟩
    · intro h0
      have ht : tail = [event.sync,
          event.rename_all_files_to_final updates_list.1 0, event.sync] := by
        rcases htail with ⟨_, hlt⟩ | ⟨r, hr, hret, _⟩ | ⟨_, ht⟩
        · omega
        · exact absurd (hret.symm.trans h0) hr
        · exact ht
      refine ⟨staged.filter is_commit_event, ?_, ?_⟩
      · intro e he
        obtain ⟨he1, he2⟩ := List.mem_filter.1 he
        exact staging_commit_is_do_staging e (hst e he1) he2
      · simp [List.filter_append, filter_eq_nil_of_class transfer_not_commit d1 hk1, ht,
          is_commit_event]
    · intro a b u r hsplit
      refine sync_before_rename _ ?_ a b u r hsplit
      have h1 := filter_eq_nil_of_class transfer_not_sync_or_rename d1 hk1
      have h2 := filter_eq_nil_of_class staging_not_sync_or_rename staged hst
      rcases htail with ⟨ht, _⟩ | ⟨r, _, _, ht⟩ | ⟨_, ht⟩
      · left
        simp [List.filter_append, h1, h2, ht]
      · right
        exact ⟨[event.rename_all_files_to_final updates_list.1 r],
          by simp [List.filter_append, h1, h2, ht, is_sync_or_rename]⟩
      · right
        exact ⟨[event.rename_all_files_to_final updates_list.1 0, event.sync],
          by simp [List.filter_append, h1, h2, ht, is_sync_or_rename]⟩

/-! ## `update_loop` on the sample inputs -/

/-- C1 (code bug).  With `MAX_TRIES = 3`, three download sessions that each report a
failed file and a fourth session (the one after the third retry) that reports none,
`update_loop` still prints "Could not download all files" and returns -1: line 162 tests
`retries >= MAX_TRIES`, not the failed list. -/
theorem update_loop_aborts_after_successful_last_retry :
    update_loop sample_config third_retry_succeeds ([sample_file], [])
        (some (sample_manifest 110), none) [] =
      (-1,
        [event.start_full_download true 0, event.try_delta sample_file,
          event.full_download sample_file, event.end_full_download [sample_file],
          event.sleep 10, event.printf (message.starting_download_retry 1),
          event.clean_curl_multi_queue,
          event.start_full_download true 0, event.try_delta sample_file,
          event.full_download sample_file, event.list_free_list [sample_file],
          event.end_full_download [sample_file],
          event.sleep 20, event.printf (message.starting_download_retry 2),
          event.clean_curl_multi_queue,
          event.start_full_download true 0, event.try_delta sample_file,
          event.full_download sample_file, event.list_free_list [sample_file],
          event.end_full_download [sample_file],
          event.sleep 40, event.printf (message.starting_download_retry 3),
          event.clean_curl_multi_queue,
          event.start_full_download true 0, event.try_delta sample_file,
          event.full_download sample_file, event.list_free_list [sample_file],
          event.end_full_download [],
          event.printf message.could_not_download_all_files,
          event.list_free_list []]) := by
  simp [update_loop, TRY_DOWNLOAD, update_loop_after_download, full_download_loop,
    full_download_loop_while, try_delta_loop, increment_retries, sample_config,
    third_retry_succeeds, all_succeed, sample_file, is_end_full_download, wrap_int,
    to_unsigned]

/-- C2 (counterexample).  The upstream session downloads everything, the session opened
after `set_mix_globals` reports a failed file, and `do_staging` and
`rename_all_files_to_final` would succeed: `update_loop` returns -1 and stages
nothing. -/
theorem update_loop_mix_download_failure_is_fatal :
    update_loop sample_config mix_download_fails ([sample_file], [sample_mix_file])
        (some (sample_manifest 110), some (sample_manifest 20)) [] =
      (-1,
        [event.start_full_download true 0, event.try_delta sample_file,
          event.full_download sample_file, event.end_full_download [],
          event.set_mix_globals,
          event.start_full_download true 0, event.try_delta sample_file,
          event.full_download sample_file, event.end_full_download [sample_mix_file],
          event.list_free_list [sample_mix_file]]) := by
  simp [update_loop, TRY_DOWNLOAD, update_loop_after_download, update_loop_mix_download,
    full_download_loop, full_download_loop_while, try_delta_loop, sample_config,
    mix_download_fails, all_succeed, sample_file, sample_mix_file, is_set_mix_globals]

/-- C3 (code bug).  Line 126 takes `mix_content` from `updates_list[0]`.  With an upstream
list and no mix list, `set_mix_globals` is called and the upstream entry goes through
`do_staging` twice; with only a mix list, the mix pass does not happen. -/
theorem update_loop_mix_pass_follows_upstream_list :
    update_loop sample_config all_succeed ([sample_file], [])
        (some (sample_manifest 110), none) [] =
      (0,
        [event.start_full_download true 0, event.try_delta sample_file,
          event.full_download sample_file, event.end_full_download [],
          event.set_mix_globals,
          event.start_full_download true 0, event.try_delta sample_file,
          event.full_download sample_file, event.end_full_download [],
          event.printf message.staging_file_content,
          event.do_staging sample_file (some (sample_manifest 110)) 0,
          event.printf message.staging_file_content,
          event.do_staging sample_file none 0,
          event.sync, event.rename_all_files_to_final [sample_file] 0, event.sync]) ∧
    update_loop sample_config all_succeed ([], [sample_mix_file])
        (some (sample_manifest 110), some (sample_manifest 20)) [] =
      (0,
        [event.start_full_download true 0, event.end_full_download [],
          event.printf message.staging_file_content,
          event.sync, event.rename_all_files_to_final [] 0, event.sync]) := by
  constructor <;>
  simp [update_loop, TRY_DOWNLOAD, update_loop_after_download, update_loop_mix_download,
    update_loop_critical_section, update_loop_commit, stage_content, stage_content_while,
    full_download_loop, full_download_loop_while, try_delta_loop, sample_config,
    all_succeed, sample_file, sample_mix_file]

/-- C4 (code bug).  `do_staging` succeeds in the first `stage_content` call and returns
-1 in the second one (line 206, whose result is not assigned): `update_loop` still calls
`sync` and `rename_all_files_to_final` and returns 0. -/
theorem update_loop_ignores_second_staging_failure :
    update_loop sample_config mix_staging_fails ([sample_file], [])
        (some (sample_manifest 110), none) [] =
      (0,
        [event.start_full_download true 0, event.try_delta sample_file,
          event.full_download sample_file, event.end_full_download [],
          event.set_mix_globals,
          event.start_full_download true 0, event.try_delta sample_file,
          event.full_download sample_file, event.end_full_download [],
          event.printf message.staging_file_content,
          event.do_staging sample_file (some (sample_manifest 110)) 0,
          event.printf message.staging_file_content,
          event.do_staging sample_file none (-1),
          event.printf (message.file_staging_failed "/usr/bin/tool"),
          event.sync, event.rename_all_files_to_final [sample_file] 0, event.sync]) := by
  simp [update_loop, TRY_DOWNLOAD, update_loop_after_download, update_loop_mix_download,
    update_loop_critical_section, update_loop_commit, stage_content, stage_content_while,
    full_download_loop, full_download_loop_while, try_delta_loop, sample_config,
    mix_staging_fails, all_succeed, sample_file]

/-- C5 on the sample run in which nothing fails: the result is 0 and the theorem
applies. -/
theorem update_loop_sync_rename_sync_witness :
    (update_loop sample_config all_succeed ([sample_file], [])
      (some (sample_manifest 110), none) []).1 = 0 ∧
    ∃ d, (update_loop sample_config all_succeed ([sample_file], [])
        (some (sample_manifest 110), none) []).2 = [] ++ d ∧
      ((update_loop sample_config all_succeed ([sample_file], [])
          (some (sample_manifest 110), none) []).1 = 0 →
        ∃ staged, (∀ e ∈ staged, is_do_staging e = true) ∧
          d.filter is_commit_event = staged ++
            [event.sync, event.rename_all_files_to_final [sample_file] 0, event.sync]) ∧
      (∀ a b u r, d = a ++ event.rename_all_files_to_final u r :: b → event.sync ∈ a) :=
  ⟨by simp [update_loop, TRY_DOWNLOAD, update_loop_after_download,
      update_loop_mix_download, update_loop_critical_section, update_loop_commit,
      stage_content, stage_content_while, full_download_loop, full_download_loop_while,
      try_delta_loop, sample_config, all_succeed, sample_file],
    update_loop_sync_rename_sync sample_config all_succeed ([sample_file], [])
      (some (sample_manifest 110), none) []⟩

/-! ## Which entries are downloaded -/

/-- C10 (counterexample).  An entry with `is_deleted` and `is_file` both set is passed
to `try_delta` in each download session of `update_loop`. -/
theorem try_delta_called_on_deleted_entry :
    sample_deleted_file.is_deleted = true ∧
    update_loop sample_config all_succeed ([sample_deleted_file], [])
        (some (sample_manifest 110), none) [] =
      (0,
        [event.start_full_download true 0, event.try_delta sample_deleted_file,
          event.end_full_download [],
          event.set_mix_globals,
          event.start_full_download true 0, event.try_delta sample_deleted_file,
          event.end_full_download [],
          event.printf message.staging_file_content,
          event.printf message.staging_file_content,
          event.sync, event.rename_all_files_to_final [sample_deleted_file] 0,
          event.sync]) := by
  constructor
  · rfl
  · simp [update_loop, TRY_DOWNLOAD, update_loop_after_download, update_loop_mix_download,
      update_loop_critical_section, update_loop_commit, stage_content,
      stage_content_while, full_download_loop, full_download_loop_while, try_delta_loop,
      sample_config, all_succeed, sample_deleted_file]

/-- C10 (amended).  `try_delta_loop` calls `try_delta`, in list order, on exactly the
entries with `is_file` set; `full_download_loop` calls `full_download`, in list order, on
exactly the entries without `is_deleted`, then frees the list if it is a list of failures
and returns what `end_full_download` reports; and in every run of `update_loop` each
`full_download` is on an entry without `is_deleted` and each `try_delta` on an entry with
`is_file`. -/
theorem download_loops_select_entries (c : collaborators) (updates : List file)
    (isfailed : Int) (tr : List event) :
    try_delta_loop updates tr =
      tr ++ (updates.filter fun f => f.is_file).map event.try_delta ∧
    (∃ failed, full_download_loop c updates isfailed tr =
      (failed, tr ++ ((updates.filter fun f => !f.is_deleted).map event.full_download ++
        ((if isfailed ≠ 0 then [event.list_free_list updates] else []) ++
          [event.end_full_download failed])))) ∧
    (∀ (cfg : config) (manifests : Option manifest × Option manifest)
        (mix : List file),
      ∃ d, (update_loop cfg c (updates, mix) manifests tr).2 = tr ++ d ∧
        ∀ f, (event.full_download f ∈ d → f.is_deleted = false) ∧
          (event.try_delta f ∈ d → f.is_file = true)) := by
  refine ⟨try_delta_loop_eq updates tr, ⟨(full_download_loop c updates isfailed tr).1, ?_⟩,
    ?_⟩
  · exact Prod.ext rfl (full_download_loop_trace c updates isfailed tr)
  · intro cfg manifests mix
    obtain ⟨d, hd, hk⟩ := update_loop_emits cfg c (updates, mix) manifests tr
    refine ⟨d, hd, ?_⟩
    intro f
    constructor
    · intro hf
      have h : (!f.is_deleted || false) = true := hk _ hf
      simpa using h
    · intro hf
      have h : (f.is_file || false) = true := hk _ hf
      simpa using h

/-! ## A failed mix download -/

theorem mem_after_first_occurrence {x : event} :
    ∀ {A B pre post : List event}, x ∉ A → A ++ x :: B = pre ++ x :: post →
      ∀ e ∈ post, e ∈ B := by
  intro A
  induction A with
  | nil =>
    intro B pre post _ h e he
    cases pre with
    | nil =>
      simp only [List.nil_append, List.cons.injEq, true_and] at h
      exact h ▸ he
    | cons y pre =>
      simp only [List.nil_append, List.cons_append, List.cons.injEq] at h
      rw [h.2]
      exact List.mem_append_right _ (List.mem_cons_of_mem _ he)
  | cons a A ih =>
    intro B pre post hA h e he
    cases pre with
    | nil =>
      simp only [List.nil_append, List.cons_append, List.cons.injEq] at h
      exact absurd (h.1 ▸ List.mem_cons_self a A) hA
    | cons y pre =>
      simp only [List.cons_append, List.cons.injEq] at h
      exact ih (fun hx => hA (List.mem_cons_of_mem _ hx)) h.2 e he

theorem full_download_session (c : collaborators) (l : List file) (i : Int)
    (t : List event) :
    ∃ d, (full_download_loop c l i (try_delta_loop l t)).2 = t ++ d ∧
      (∀ e ∈ d, is_session_event e = true) ∧
      (∀ failed, event.end_full_download failed ∈ d →
        failed = (full_download_loop c l i (try_delta_loop l t)).1) := by
  obtain ⟨d, hd, hk⟩ := emits_trans (try_delta_loop_emits l t)
    (full_download_loop_emits c l i _)
  refine ⟨d, hd, hk, ?_⟩
  intro failed hf
  have heq := hd
  rw [full_download_loop_trace, try_delta_loop_eq, List.append_assoc,
    List.append_right_inj] at heq
  rw [← heq] at hf
  have hfree : event.end_full_download failed ∉
      (if i ≠ 0 then [event.list_free_list l] else []) := by
    split_ifs <;> simp
  simpa [hfree, try_delta_loop_eq] using hf

theorem update_loop_mix_download_shape (c : collaborators) (mix_content : List file)
    (tr : List event) :
    update_loop_mix_download c mix_content tr = (none, tr) ∨
    ∃ body, (update_loop_mix_download c mix_content tr).2 =
        tr ++ event.set_mix_globals :: body ∧
      (∀ e ∈ body, is_session_event e = true) ∧
      (∀ failed, event.end_full_download failed ∈ body → failed ≠ [] →
        (update_loop_mix_download c mix_content tr).1 = some (-1)) := by
  unfold update_loop_mix_download
  dsimp only
  by_cases h1 : mix_content = []
  · left
    rw [if_neg (by simpa using h1)]
  · right
    rw [if_pos h1]
    by_cases h2 : c.start_full_download (tr ++ [event.set_mix_globals]) true = 0
    · rw [if_neg (by simpa using h2)]
      obtain ⟨d, hd, hk, hend⟩ := full_download_session c mix_content 0
        (tr ++ [event.set_mix_globals] ++ [event.start_full_download true
          (c.start_full_download (tr ++ [event.set_mix_globals]) true)])
      by_cases h3 : (full_download_loop c mix_content 0 (try_delta_loop mix_content
          (tr ++ [event.set_mix_globals] ++ [event.start_full_download true
            (c.start_full_download (tr ++ [event.set_mix_globals]) true)]))).1 = []
      · rw [if_neg (by simpa using h3)]
        refine ⟨event.start_full_download true
          (c.start_full_download (tr ++ [event.set_mix_globals]) true) :: d,
          by rw [hd]; simp, ?_, ?_⟩
        · intro e he
          rcases List.mem_cons.1 he with rfl | he
          · rfl
          · exact hk e he
        · intro failed hf hne
          rcases List.mem_cons.1 hf with hf | hf
          · cases hf
          · exact absurd ((hend failed hf).trans h3) hne
      · rw [if_pos h3]
        refine ⟨event.start_full_download true
          (c.start_full_download (tr ++ [event.set_mix_globals]) true) ::
            (d ++ [event.list_free_list (full_download_loop c mix_content 0
              (try_delta_loop mix_content (tr ++ [event.set_mix_globals] ++
                [event.start_full_download true (c.start_full_download
                  (tr ++ [event.set_mix_globals]) true)]))).1]),
          by rw [hd]; simp, ?_, fun _ _ _ => rfl⟩
        intro e he
        rcases List.mem_cons.1 he with rfl | he
        · rfl
        · rcases List.mem_append.1 he with he | he
          · exact hk e he
          · simp only [List.mem_singleton] at he
            subst he
            rfl
    · rw [if_pos h2]
      refine ⟨[event.start_full_download true
        (c.start_full_download (tr ++ [event.set_mix_globals]) true)], by simp, ?_, ?_⟩
      · intro e he
        simp only [List.mem_singleton] at he
        subst he
        rfl
      · intro failed hf
        simp at hf

theorem update_loop_critical_section_emits_critical (c : collaborators)
    (updates mix_content : List file) (server_manifest mix_manifest : Option manifest)
    (tr : List event) :
    emits is_critical_event tr
      (update_loop_critical_section c updates mix_content server_manifest mix_manifest
        tr).2 := by
  obtain ⟨staged, tail, htr, hst, htail⟩ :=
    update_loop_critical_section_shape c updates mix_content server_manifest mix_manifest tr
  refine ⟨staged ++ tail, htr, ?_⟩
  intro e he
  rcases List.mem_append.1 he with he | he
  · simp [is_critical_event, hst e he]
  · rcases htail with ⟨ht, _⟩ | ⟨r, _, _, ht⟩ | ⟨_, ht⟩ <;> subst ht <;>
      simp at he <;> rcases he with rfl | rfl | rfl <;> rfl

/-- C2 (amended).  On every run of `update_loop`: if the download session opened after
`set_mix_globals` reports a non-empty failed list, then `update_loop` returns -1 and
calls none of `do_staging`, `sync` and `rename_all_files_to_final`. -/
theorem update_loop_fails_when_mix_download_fails (cfg : config) (c : collaborators)
    (updates_list : List file × List file) (manifests : Option manifest × Option manifest)
    (tr : List event) :
    ∃ d, (update_loop cfg c updates_list manifests tr).2 = tr ++ d ∧
      ∀ pre post failed, d = pre ++ event.set_mix_globals :: post →
        event.end_full_download failed ∈ post → failed ≠ [] →
        (update_loop cfg c updates_list manifests tr).1 = -1 ∧
          d.filter is_commit_event = [] := by
  unfold update_loop
  dsimp only
  obtain ⟨d0, hd0, hk0⟩ := TRY_DOWNLOAD_emits cfg c updates_list.1 _ [] 0 10 tr rfl
  have hnomix : ∀ {d : List event}, (∀ e ∈ d, is_set_mix_globals e = false) →
      ∀ pre post, d ≠ pre ++ event.set_mix_globals :: post := by
    intro d hd pre post h
    have := hd event.set_mix_globals (by rw [h]; simp)
    cases this
  have hk0t : ∀ e ∈ d0, is_set_mix_globals e = false :=
    fun e he => download_not_set_mix_globals e (hk0 e he)
  rcases hd : TRY_DOWNLOAD cfg c updates_list.1 [] 0 10 tr with ⟨ex, tr1⟩
  rw [hd] at hd0
  dsimp only at hd0
  subst hd0
  cases ex with
  | returned err =>
    exact ⟨d0, rfl, fun pre post _ h => absurd h (hnomix hk0t pre post)⟩
  | fell_through failed retries timeout =>
    dsimp only
    unfold update_loop_after_download
    by_cases h1 : retries ≥ cfg.MAX_TRIES
    · rw [if_pos h1]
      refine ⟨d0 ++ [event.printf message.could_not_download_all_files,
        event.list_free_list failed], by simp, fun pre post _ h => absurd h ?_⟩
      refine hnomix ?_ pre post
      intro e he
      rcases List.mem_append.1 he with he | he
      · exact hk0t e he
      · simp at he
        rcases he with rfl | rfl <;> rfl
    · rw [if_neg h1]
      have hx : event.set_mix_globals ∉ d0 := fun hx => by
        have := hk0t _ hx
        cases this
      rcases update_loop_mix_download_shape c updates_list.1 (tr ++ d0) with
        hnone | ⟨body, hbody, hkb, hfail⟩
      · rw [hnone]
        dsimp only
        by_cases h2 : cfg.download_only = true
        · rw [if_pos h2]
          exact ⟨d0, rfl, fun pre post _ h => absurd h (hnomix hk0t pre post)⟩
        · rw [if_neg h2]
          obtain ⟨dc, hdc, hkc⟩ := update_loop_critical_section_emits_critical c
            updates_list.1 updates_list.1 manifests.1 manifests.2 (tr ++ d0)
          refine ⟨d0 ++ dc, by rw [hdc, List.append_assoc],
            fun pre post _ h => absurd h ?_⟩
          refine hnomix ?_ pre post
          intro e he
          rcases List.mem_append.1 he with he | he
          · exact hk0t e he
          · exact (critical_not_set_mix_globals_or_end e (hkc e he)).1
      · rcases hm : update_loop_mix_download c updates_list.1 (tr ++ d0) with ⟨code, tr2⟩
        rw [hm] at hbody hfail
        dsimp only at hbody hfail
        subst hbody
        have hkt : ∀ e ∈ d0 ++ event.set_mix_globals :: body,
            is_transfer_event e = true := by
          intro e he
          rcases List.mem_append.1 he with he | he
          · exact download_is_transfer e (hk0 e he)
          · rcases List.mem_cons.1 he with rfl | he
            · rfl
            · exact download_is_transfer e (session_is_download e (hkb e he))
        cases code with
        | some code =>
          dsimp only
          refine ⟨d0 ++ event.set_mix_globals :: body, by rw [List.append_assoc], ?_⟩
          intro pre post failed hsplit hend hne
          have hmem := mem_after_first_occurrence hx hsplit _ hend
          have hcode := hfail failed hmem hne
          simp only [Option.some.injEq] at hcode
          exact ⟨hcode, filter_eq_nil_of_class transfer_not_commit _ hkt⟩
        | none =>
          dsimp only
          by_cases h2 : cfg.download_only = true
          · rw [if_pos h2]
            refine ⟨d0 ++ event.set_mix_globals :: body, by rw [List.append_assoc], ?_⟩
            intro pre post failed hsplit hend hne
            have hmem := mem_after_first_occurrence hx hsplit _ hend
            have hcode := hfail failed hmem hne
            cases hcode
          · rw [if_neg h2]
            obtain ⟨dc, hdc, hkc⟩ := update_loop_critical_section_emits_critical c
              updates_list.1 updates_list.1 manifests.1 manifests.2
              (tr ++ d0 ++ event.set_mix_globals :: body)
            refine ⟨d0 ++ event.set_mix_globals :: (body ++ dc),
              by rw [hdc]; simp, ?_⟩
            intro pre post failed hsplit hend hne
            have hmem := mem_after_first_occurrence hx hsplit _ hend
            rcases List.mem_append.1 hmem with hmem | hmem
            · have hcode := hfail failed hmem hne
              cases hcode
            · have := (critical_not_set_mix_globals_or_end _ (hkc _ hmem)).2
              cases this

/-- C2 (amended) on the sample run in which the session opened after `set_mix_globals`
reports a failed file. -/
theorem update_loop_fails_when_mix_download_fails_witness :
    (update_loop sample_config mix_download_fails ([sample_file], [sample_mix_file])
      (some (sample_manifest 110), some (sample_manifest 20)) []).1 = -1 ∧
    (update_loop sample_config mix_download_fails ([sample_file], [sample_mix_file])
      (some (sample_manifest 110), some (sample_manifest 20)) []).2.filter
        is_commit_event = [] := by
  obtain ⟨d, hd, h⟩ := update_loop_fails_when_mix_download_fails sample_config
    mix_download_fails ([sample_file], [sample_mix_file])
    (some (sample_manifest 110), some (sample_manifest 20)) []
  have hrun : (update_loop sample_config mix_download_fails
      ([sample_file], [sample_mix_file])
      (some (sample_manifest 110), some (sample_manifest 20)) []).2 =
      [event.start_full_download true 0, event.try_delta sample_file,
        event.full_download sample_file, event.end_full_download []] ++
      event.set_mix_globals ::
        [event.start_full_download true 0, event.try_delta sample_file,
          event.full_download sample_file, event.end_full_download [sample_mix_file],
          event.list_free_list [sample_mix_file]] := by
    simp [update_loop, TRY_DOWNLOAD, update_loop_after_download, update_loop_mix_download,
      full_download_loop, full_download_loop_while, try_delta_loop, sample_config,
      mix_download_fails, all_succeed, sample_file, sample_mix_file, is_set_mix_globals]
  rw [List.nil_append] at hd
  rw [hd]
  exact h _ _ [sample_mix_file] (hd.symm.trans hrun) (by simp) (by simp)

/-! ## The back-off of the download loop -/

theorem update_loop_mix_download_emits_post (c : collaborators) (mix_content : List file)
    (tr : List event) :
    emits is_post_download_event tr (update_loop_mix_download c mix_content tr).2 := by
  rcases update_loop_mix_download_shape c mix_content tr with h | ⟨body, hbody, hk, _⟩
  · rw [h]
    exact emits_refl _ _
  · refine ⟨_, hbody, ?_⟩
    intro e he
    rcases List.mem_cons.1 he with rfl | he
    · rfl
    · exact session_is_post_download e (hk e he)

theorem update_loop_after_download_emits (cfg : config) (c : collaborators)
    (updates mix_content : List file) (server_manifest mix_manifest : Option manifest)
    (failed : List file) (retries : Nat) (tr : List event) :
    emits is_post_download_event tr
      (update_loop_after_download cfg c updates mix_content server_manifest mix_manifest
        failed retries tr).2 := by
  unfold update_loop_after_download
  by_cases h1 : retries ≥ cfg.MAX_TRIES
  · rw [if_pos h1]
    exact emits_append _ (emits_refl _ _)
      (by simp [is_post_download_event, is_session_event])
  · rw [if_neg h1]
    have hmix := update_loop_mix_download_emits_post c mix_content tr
    rcases hm : update_loop_mix_download c mix_content tr with ⟨code, tr2⟩
    rw [hm] at hmix
    cases code with
    | some code => exact hmix
    | none =>
      dsimp only
      by_cases h2 : cfg.download_only = true
      · rw [if_pos h2]
        exact hmix
      · rw [if_neg h2]
        exact emits_trans hmix (emits_mono critical_is_post_download
          (update_loop_critical_section_emits_critical _ _ _ _ _ _))

theorem TRY_DOWNLOAD_backoff (cfg : config) (c : collaborators) (updates : List file) :
    ∀ (n : Nat) (failed : List file) (retries : Nat) (timeout : Int) (tr : List event),
      cfg.MAX_TRIES - retries = n → retries ≤ cfg.MAX_TRIES →
      ∃ d k, (TRY_DOWNLOAD cfg c updates failed retries timeout tr).2 = tr ++ d ∧
        retries + k ≤ cfg.MAX_TRIES ∧
        d.filter is_backoff_event =
          backoff_seq message.starting_download_retry k retries timeout := by
  intro n
  induction n using Nat.strong_induction_on with
  | _ n ih =>
    intro failed retries timeout tr hn hle
    have hsess : ∀ l i, ∃ ds,
        (full_download_loop c l i (try_delta_loop l
          (tr ++ [event.start_full_download true (c.start_full_download tr true)]))).2 =
          tr ++ (event.start_full_download true (c.start_full_download tr true) :: ds) ∧
        ds.filter is_backoff_event = [] := by
      intro l i
      obtain ⟨ds, hds, hk⟩ := emits_trans (try_delta_loop_emits l
        (tr ++ [event.start_full_download true (c.start_full_download tr true)]))
        (full_download_loop_emits c l i _)
      exact ⟨ds, by rw [hds]; simp, filter_eq_nil_of_class session_not_backoff ds hk⟩
    have hstop : ∀ l i, ∃ d k,
        (full_download_loop c l i (try_delta_loop l
          (tr ++ [event.start_full_download true (c.start_full_download tr true)]))).2 =
          tr ++ d ∧ retries + k ≤ cfg.MAX_TRIES ∧
        d.filter is_backoff_event =
          backoff_seq message.starting_download_retry k retries timeout := by
      intro l i
      obtain ⟨ds, hds, hf⟩ := hsess l i
      exact ⟨_, 0, hds, hle, by simp [List.filter_cons, is_backoff_event, hf, backoff_seq]⟩
    have hretry : retries < cfg.MAX_TRIES → ∀ l i, ∃ d k,
        (TRY_DOWNLOAD cfg c updates
          (full_download_loop c l i (try_delta_loop l
            (tr ++ [event.start_full_download true (c.start_full_download tr true)]))).1
          (retries + 1) (wrap_int (timeout * 2))
          ((full_download_loop c l i (try_delta_loop l
            (tr ++ [event.start_full_download true (c.start_full_download tr true)]))).2 ++
              [event.sleep (to_unsigned timeout)] ++
            [event.printf (message.starting_download_retry (retries + 1)),
              event.clean_curl_multi_queue])).2 = tr ++ d ∧
          retries + k ≤ cfg.MAX_TRIES ∧
          d.filter is_backoff_event =
            backoff_seq message.starting_download_retry k retries timeout := by
      intro hlt l i
      obtain ⟨ds, hds, hf⟩ := hsess l i
      obtain ⟨d1, k1, hd1, hk1, hb1⟩ := ih (cfg.MAX_TRIES - (retries + 1)) (by omega)
        (full_download_loop c l i (try_delta_loop l
          (tr ++ [event.start_full_download true (c.start_full_download tr true)]))).1
        (retries + 1) (wrap_int (timeout * 2))
        ((full_download_loop c l i (try_delta_loop l
          (tr ++ [event.start_full_download true (c.start_full_download tr true)]))).2 ++
            [event.sleep (to_unsigned timeout)] ++
          [event.printf (message.starting_download_retry (retries + 1)),
            event.clean_curl_multi_queue]) rfl (by omega)
      refine ⟨event.start_full_download true (c.start_full_download tr true) :: ds ++
        [event.sleep (to_unsigned timeout),
          event.printf (message.starting_download_retry (retries + 1)),
          event.clean_curl_multi_queue] ++ d1, k1 + 1, ?_, by omega, ?_⟩
      · rw [hd1, hds]
        simp
      · simp [List.filter_append, List.filter_cons, is_backoff_event, hf, hb1, backoff_seq]
    rw [TRY_DOWNLOAD]
    simp only [increment_retries]
    split_ifs with h1 h2 h3 h4
    · exact ⟨_, 0, rfl, hle, by simp [is_backoff_event, backoff_seq]⟩
    · exact hretry h3.2 _ _
    · exact hstop _ _
    · exact hretry h4.2 _ _
    · exact hstop _ _

theorem update_loop_backoff (cfg : config) (c : collaborators)
    (updates_list : List file × List file) (manifests : Option manifest × Option manifest)
    (tr : List event) :
    ∃ d k, (update_loop cfg c updates_list manifests tr).2 = tr ++ d ∧
      k ≤ cfg.MAX_TRIES ∧
      d.filter is_backoff_event = backoff_seq message.starting_download_retry k 0 10 := by
  obtain ⟨d0, k, hd0, hk, hb⟩ :=
    TRY_DOWNLOAD_backoff cfg c updates_list.1 _ [] 0 10 tr rfl (Nat.zero_le _)
  unfold update_loop
  dsimp only
  rcases hd : TRY_DOWNLOAD cfg c updates_list.1 [] 0 10 tr with ⟨ex, tr1⟩
  rw [hd] at hd0
  dsimp only at hd0
  subst hd0
  cases ex with
  | returned err => exact ⟨d0, k, rfl, by omega, hb⟩
  | fell_through failed retries timeout =>
    dsimp only
    obtain ⟨d1, hd1, hk1⟩ := update_loop_after_download_emits cfg c updates_list.1
      updates_list.1 manifests.1 manifests.2 failed retries (tr ++ d0)
    refine ⟨d0 ++ d1, k, by rw [hd1, List.append_assoc], by omega, ?_⟩
    rw [List.filter_append, hb, filter_eq_nil_of_class post_download_not_backoff d1 hk1,
      List.append_nil]

/-! ## The back-off schedule in closed form -/

theorem wrap_int_eq (x : Int) (h1 : -2 ^ 31 ≤ x) (h2 : x < 2 ^ 31) : wrap_int x = x := by
  unfold wrap_int
  norm_num at *
  omega

theorem to_unsigned_eq (x : Int) (h1 : 0 ≤ x) (h2 : x < 2 ^ 32) : to_unsigned x = x := by
  unfold to_unsigned
  norm_num at *
  omega

theorem backoff_seq_eq (retry_message : Nat → message) :
    ∀ (k r : Nat), 10 * 2 ^ (r + k) < 2 ^ 31 →
      backoff_seq retry_message k r (10 * 2 ^ r) =
        (List.range k).flatMap fun j =>
          [event.sleep (10 * 2 ^ (r + j)), event.printf (retry_message (r + j + 1))] := by
  intro k
  induction k with
  | zero => intro r _; rfl
  | succ k ih =>
    intro r h
    have hpow : (2 : Nat) ^ (r + 1) ≤ 2 ^ (r + (k + 1)) :=
      Nat.pow_le_pow_right (by norm_num) (by omega)
    have hr : (10 : Int) * 2 ^ (r + 1) < 2 ^ 31 := by
      have : 10 * 2 ^ (r + 1) < 2 ^ 31 := by omega
      exact_mod_cast this
    have hr0 : (0 : Int) ≤ 10 * 2 ^ r := by positivity
    have hr1 : (10 : Int) * 2 ^ r < 2 ^ 31 := by
      have : (10 : Int) * 2 ^ (r + 1) = 2 * (10 * 2 ^ r) := by ring
      omega
    rw [backoff_seq, to_unsigned_eq _ hr0 (by linarith),
      show (10 : Int) * 2 ^ r * 2 = 10 * 2 ^ (r + 1) by ring,
      wrap_int_eq _ (by have : (0 : Int) ≤ 10 * 2 ^ (r + 1) := by positivity
                        linarith) hr,
      ih (r + 1) (by rw [show r + 1 + k = r + (k + 1) by omega]; exact h),
      List.range_succ_eq_map, List.flatMap_cons, List.flatMap_map]
    simp [Nat.succ_eq_add_one, Nat.add_assoc, Nat.add_comm 1]

theorem backoff_seq_eq_schedule (retry_message : Nat → message) (MAX_TRIES k : Nat)
    (hmax : 10 * 2 ^ MAX_TRIES < 2 ^ 31) (hk : k ≤ MAX_TRIES) :
    backoff_seq retry_message k 0 10 = backoff_schedule retry_message k := by
  have hpow : (2 : Nat) ^ k ≤ 2 ^ MAX_TRIES := Nat.pow_le_pow_right (by norm_num) hk
  have h := backoff_seq_eq retry_message k 0 (by rw [Nat.zero_add]; omega)
  simp only [pow_zero, mul_one, Nat.zero_add] at h
  rw [h]
  rfl

/-! ## The retry stages of `main_update` -/

theorem quiet_not_lifecycle (e : event) (h : is_quiet_event e = true) :
    is_lifecycle_event e = false := by
  simp only [is_quiet_event, Bool.and_eq_true, Bool.not_eq_true'] at h
  exact h.2

theorem quiet_not_backoff (e : event) (h : is_quiet_event e = true) :
    is_backoff_event e = false := by
  simp only [is_quiet_event, Bool.and_eq_true, Bool.not_eq_true'] at h
  exact h.1

theorem stage_backoffs_nil (MAX_TRIES : Nat) :
    ∀ stages : List (Nat → message), stage_backoffs MAX_TRIES stages [] := by
  intro stages
  induction stages with
  | nil => rfl
  | cons m ms ih => exact ⟨0, [], Nat.zero_le _, rfl, ih⟩

theorem stage_spec_exit {cfg : config} {retry_message : Nat → message}
    {later : List (Nat → message)} {retries : Nat} {timeout : Int} {tr : List event}
    {r : program_point × main_locals × List event}
    (hres : stage_result_ok cfg r) (hq : emits is_quiet_event tr r.2.2)
    (hle : retries ≤ cfg.MAX_TRIES) :
    stage_spec cfg retry_message later retries timeout tr r := by
  obtain ⟨d, hd, hk⟩ := hq
  refine ⟨hres, d, 0, [], hd, fun e he => quiet_not_lifecycle e (hk e he), hle, ?_,
    stage_backoffs_nil _ _⟩
  rw [filter_eq_nil_of_class quiet_not_backoff d hk]
  rfl

theorem stage_spec_next {cfg : config} {retry_message next_message : Nat → message}
    {later : List (Nat → message)} {retries : Nat} {timeout : Int} {tr tr0 : List event}
    {r : program_point × main_locals × List event}
    (h : stage_spec cfg next_message later 0 10 tr0 r)
    (hq : emits is_quiet_event tr tr0) (hle : retries ≤ cfg.MAX_TRIES) :
    stage_spec cfg retry_message (next_message :: later) retries timeout tr r := by
  obtain ⟨d0, rfl, hk0⟩ := hq
  obtain ⟨hres, d, k, rest, hd, ht, hk, hb, hs⟩ := h
  refine ⟨hres, d0 ++ d, 0, backoff_seq next_message k 0 10 ++ rest,
    by rw [hd, List.append_assoc], ?_, hle, ?_, ⟨k, rest, by omega, rfl, hs⟩⟩
  · intro e he
    rcases List.mem_append.1 he with he | he
    · exact quiet_not_lifecycle e (hk0 e he)
    · exact ht e he
  · rw [List.filter_append, filter_eq_nil_of_class quiet_not_backoff d0 hk0, hb]
    rfl

theorem stage_spec_retry {cfg : config} {retry_message : Nat → message}
    {later : List (Nat → message)} {retries : Nat} {timeout : Int} {tr tr0 : List event}
    {r : program_point × main_locals × List event}
    (h : stage_spec cfg retry_message later (retries + 1) (wrap_int (timeout * 2))
      (tr0 ++ [event.sleep (to_unsigned timeout)] ++
        [event.printf (retry_message (retries + 1))]) r)
    (hq : emits is_quiet_event tr tr0)
    (hmsg : is_backoff_event (event.printf (retry_message (retries + 1))) = true) :
    stage_spec cfg retry_message later retries timeout tr r := by
  obtain ⟨d0, rfl, hk0⟩ := hq
  obtain ⟨hres, d, k, rest, hd, ht, hk, hb, hs⟩ := h
  refine ⟨hres, d0 ++ [event.sleep (to_unsigned timeout),
    event.printf (retry_message (retries + 1))] ++ d, k + 1, rest,
    by rw [hd]; simp, ?_, by omega, ?_, hs⟩
  · intro e he
    rcases List.mem_append.1 he with he | he
    · rcases List.mem_append.1 he with he | he
      · exact quiet_not_lifecycle e (hk0 e he)
      · simp only [List.mem_cons, List.mem_singleton, List.not_mem_nil, or_false] at he
        rcases he with rfl | rfl <;> rfl
    · exact ht e he
  · rw [List.filter_append, List.filter_append,
      filter_eq_nil_of_class quiet_not_backoff d0 hk0, hb]
    have hsleep : is_backoff_event (event.sleep (to_unsigned timeout)) = true := rfl
    simp [List.filter_cons, hsleep, hmsg, backoff_seq]

theorem add_included_manifests_trace (c : collaborators) (mom : Option manifest)
    (current : Int) (subs : List sub) (tr : List event) :
    emits is_quiet_event tr (add_included_manifests c mom current subs tr).2.2 := by
  unfold add_included_manifests
  dsimp only
  exact emits_append _ (emits_append _ (emits_refl _ _) (by simp [is_quiet_event,
    is_backoff_event, is_lifecycle_event])) (by simp [is_quiet_event, is_backoff_event,
    is_lifecycle_event])

theorem setup_mix_update_emits (cfg : config) (c : collaborators)
    (curr_mix_version latest_mix_version : Int) (mix_bundles : List sub)
    (tr : List event) :
    emits is_quiet_event tr
      (setup_mix_update cfg c curr_mix_version latest_mix_version mix_bundles tr).2.2.2 := by
  unfold setup_mix_update
  dsimp only
  repeat' split
  all_goals
    repeat (first
      | with_reducible exact emits_refl _ _
      | with_reducible refine emits_trans ?_ (add_included_manifests_trace _ _ _ _ _)
      | (with_reducible refine emits_append _ ?_ ?_) <;>
          [skip; (simp [is_quiet_event, is_backoff_event, is_lifecycle_event])])

theorem download_packs_spec (cfg : config) (c : collaborators)
    (current_version server_version : Int) :
    ∀ (n : Nat) (current_manifest server_manifest : manifest) (latest_subs : List sub)
      (retries : Nat) (timeout : Int) (tr : List event),
      cfg.MAX_TRIES - retries = n → retries ≤ cfg.MAX_TRIES →
      stage_spec cfg message.retry_packs [] retries timeout tr
        (download_packs cfg c current_version server_version current_manifest
          server_manifest latest_subs retries timeout tr) := by
  intro n
  induction n using Nat.strong_induction_on with
  | _ n ih =>
    intro current_manifest server_manifest latest_subs retries timeout tr hn hle
    rw [download_packs]
    simp only [increment_retries]
    split_ifs with h1 h2 h3 h4
    · refine stage_spec_retry (ih _ (by omega) _ _ _ _ _ _ rfl (by omega)) ?_ rfl
      exact emits_append _ (emits_refl _ _)
        (by simp [is_quiet_event, is_backoff_event, is_lifecycle_event])
    · refine stage_spec_exit (Or.inl ⟨rfl, Or.inr (Or.inr (Or.inr rfl))⟩) ?_ hle
      exact emits_append _ (emits_append _ (emits_refl _ _)
        (by simp [is_quiet_event, is_backoff_event, is_lifecycle_event]))
        (by simp [is_quiet_event, is_backoff_event, is_lifecycle_event])
    all_goals
      refine stage_spec_exit (Or.inr rfl) ?_ hle
      dsimp only
      repeat (first
        | with_reducible exact emits_refl _ _
        | with_reducible refine emits_trans ?_ (setup_mix_update_emits _ _ _ _ _ _)
        | (with_reducible refine emits_append _ ?_ ?_) <;>
            [skip; (simp [is_quiet_event, is_backoff_event, is_lifecycle_event])])

theorem load_server_submanifests_spec (cfg : config) (c : collaborators)
    (current_version server_version : Int) :
    ∀ (n : Nat) (current_manifest server_manifest : manifest)
      (current_subs latest_subs : List sub) (retries : Nat) (timeout : Int)
      (tr : List event),
      cfg.MAX_TRIES - retries = n → retries ≤ cfg.MAX_TRIES →
      stage_spec cfg message.retry_server_submanifests [message.retry_packs] retries
        timeout tr
        (load_server_submanifests cfg c current_version server_version current_manifest
          server_manifest current_subs latest_subs retries timeout tr) := by
  intro n
  induction n using Nat.strong_induction_on with
  | _ n ih =>
    intro current_manifest server_manifest current_subs latest_subs retries timeout tr hn
      hle
    rw [load_server_submanifests]
    simp only [increment_retries]
    split_ifs with h1 h2
    · refine stage_spec_retry (ih _ (by omega) _ _ _ _ _ _ _ rfl (by omega)) ?_ rfl
      exact emits_append _ (emits_refl _ _)
        (by simp [is_quiet_event, is_backoff_event, is_lifecycle_event])
    · refine stage_spec_exit (Or.inl ⟨rfl, Or.inr (Or.inl rfl)⟩) ?_ hle
      exact emits_append _ (emits_append _ (emits_refl _ _)
        (by simp [is_quiet_event, is_backoff_event, is_lifecycle_event]))
        (by simp [is_quiet_event, is_backoff_event, is_lifecycle_event])
    · refine stage_spec_next (download_packs_spec cfg c _ _ _ _ _ _ _ _ _ rfl
        (Nat.zero_le _)) ?_ hle
      repeat (first
        | with_reducible exact emits_refl _ _
        | (with_reducible refine emits_append _ ?_ ?_) <;>
            [skip; (simp [is_quiet_event, is_backoff_event, is_lifecycle_event])])

theorem load_current_submanifests_spec (cfg : config) (c : collaborators)
    (current_version server_version : Int) :
    ∀ (n : Nat) (current_manifest server_manifest : manifest)
      (current_subs : List sub) (retries : Nat) (timeout : Int) (tr : List event),
      cfg.MAX_TRIES - retries = n → retries ≤ cfg.MAX_TRIES →
      stage_spec cfg message.retry_current_submanifests
        [message.retry_server_submanifests, message.retry_packs] retries timeout tr
        (load_current_submanifests cfg c current_version server_version current_manifest
          server_manifest current_subs retries timeout tr) := by
  intro n
  induction n using Nat.strong_induction_on with
  | _ n ih =>
    intro current_manifest server_manifest current_subs retries timeout tr hn hle
    rw [load_current_submanifests]
    simp only [increment_retries]
    split_ifs with h1 h2 h3
    · refine stage_spec_retry (ih _ (by omega) _ _ _ _ _ _ rfl (by omega)) ?_ rfl
      exact emits_append _ (emits_refl _ _)
        (by simp [is_quiet_event, is_backoff_event, is_lifecycle_event])
    · refine stage_spec_exit (Or.inl ⟨rfl, Or.inr (Or.inl rfl)⟩) ?_ hle
      exact emits_append _ (emits_append _ (emits_refl _ _)
        (by simp [is_quiet_event, is_backoff_event, is_lifecycle_event]))
        (by simp [is_quiet_event, is_backoff_event, is_lifecycle_event])
    · refine stage_spec_exit (Or.inl ⟨rfl, Or.inr (Or.inr (Or.inl rfl))⟩) ?_ hle
      repeat (first
        | with_reducible exact emits_refl _ _
        | with_reducible refine emits_trans ?_ (add_included_manifests_trace _ _ _ _ _)
        | (with_reducible refine emits_append _ ?_ ?_) <;>
            [skip; (simp [is_quiet_event, is_backoff_event, is_lifecycle_event])])
    · refine stage_spec_next (load_server_submanifests_spec cfg c _ _ _ _ _ _ _ _ _ _ rfl
        (Nat.zero_le _)) ?_ hle
      repeat (first
        | with_reducible exact emits_refl _ _
        | with_reducible refine emits_trans ?_ (add_included_manifests_trace _ _ _ _ _)
        | (with_reducible refine emits_append _ ?_ ?_) <;>
            [skip; (simp [is_quiet_event, is_backoff_event, is_lifecycle_event])])

theorem load_server_mom_spec (cfg : config) (c : collaborators)
    (current_version server_version : Int) :
    ∀ (n : Nat) (current_manifest : manifest) (current_subs : List sub) (retries : Nat)
      (timeout : Int) (tr : List event),
      cfg.MAX_TRIES - retries = n → retries ≤ cfg.MAX_TRIES →
      stage_spec cfg message.retry_server_manifests
        [message.retry_current_submanifests, message.retry_server_submanifests,
          message.retry_packs] retries timeout tr
        (load_server_mom cfg c current_version server_version current_manifest
          current_subs retries timeout tr) := by
  intro n
  induction n using Nat.strong_induction_on with
  | _ n ih =>
    intro current_manifest current_subs retries timeout tr hn hle
    rw [load_server_mom]
    simp only [increment_retries]
    split
    · split_ifs with h2
      · refine stage_spec_retry (ih _ (by omega) _ _ _ _ _ rfl (by omega)) ?_ rfl
        exact emits_append _ (emits_append _ (emits_refl _ _)
          (by simp [is_quiet_event, is_backoff_event, is_lifecycle_event]))
          (by simp [is_quiet_event, is_backoff_event, is_lifecycle_event])
      · refine stage_spec_exit (Or.inl ⟨rfl, Or.inl rfl⟩) ?_ hle
        repeat (first
          | with_reducible exact emits_refl _ _
          | (with_reducible refine emits_append _ ?_ ?_) <;>
              [skip; (simp [is_quiet_event, is_backoff_event, is_lifecycle_event])])
    · refine stage_spec_next (load_current_submanifests_spec cfg c _ _ _ _ _ _ _ _ _ rfl
        (Nat.zero_le _)) ?_ hle
      repeat (first
        | with_reducible exact emits_refl _ _
        | (with_reducible refine emits_append _ ?_ ?_) <;>
            [skip; (simp [is_quiet_event, is_backoff_event, is_lifecycle_event])])

theorem load_current_mom_spec (cfg : config) (c : collaborators)
    (current_version server_version : Int) :
    ∀ (n : Nat) (current_subs : List sub) (retries : Nat) (timeout : Int)
      (tr : List event),
      cfg.MAX_TRIES - retries = n → retries ≤ cfg.MAX_TRIES →
      stage_spec cfg message.retry_mom_manifests
        [message.retry_server_manifests, message.retry_current_submanifests,
          message.retry_server_submanifests, message.retry_packs] retries timeout tr
        (load_current_mom cfg c current_version server_version current_subs retries
          timeout tr) := by
  intro n
  induction n using Nat.strong_induction_on with
  | _ n ih =>
    intro current_subs retries timeout tr hn hle
    rw [load_current_mom]
    simp only [increment_retries]
    split
    · split_ifs with h2
      · refine stage_spec_retry (ih _ (by omega) _ _ _ _ rfl (by omega)) ?_ rfl
        exact emits_append _ (emits_refl _ _)
          (by simp [is_quiet_event, is_backoff_event, is_lifecycle_event])
      · refine stage_spec_exit (Or.inl ⟨rfl, Or.inl rfl⟩) ?_ hle
        repeat (first
          | with_reducible exact emits_refl _ _
          | (with_reducible refine emits_append _ ?_ ?_) <;>
              [skip; (simp [is_quiet_event, is_backoff_event, is_lifecycle_event])])
    · refine stage_spec_next (load_server_mom_spec cfg c _ _ _ _ _ _ _ _ rfl
        (Nat.zero_le _)) ?_ hle
      repeat (first
        | with_reducible exact emits_refl _ _
        | (with_reducible refine emits_append _ ?_ ?_) <;>
            [skip; (simp [is_quiet_event, is_backoff_event, is_lifecycle_event])])

/-! ## Steps 1 to 6 and the cleanup of `main_update` -/

theorem update_loop_not_lifecycle (e : event) (h : is_update_loop_event e = true) :
    is_lifecycle_event e = false := by
  cases e with
  | printf m =>
    cases m <;>
    simp_all [is_session_event, is_download_event, is_transfer_event, is_staging_event,
      is_update_loop_event, is_lifecycle_event]
  | _ =>
    simp_all [is_session_event, is_download_event, is_transfer_event, is_staging_event,
      is_update_loop_event, is_lifecycle_event]

theorem not_lifecycle_not_teardown (e : event) (h : is_lifecycle_event e = false) :
    is_teardown_event e = false := by
  cases e <;> first | rfl | cases h

theorem not_lifecycle_not_telemetry (e : event) (h : is_lifecycle_event e = false) :
    is_telemetry e = false := by
  cases e <;> first | rfl | cases h

theorem steps_result_of_stages {cfg : config} {tr tr0 : List event}
    {r : program_point × main_locals × List event} {ret cur srv : Int}
    (h : stage_spec cfg message.retry_mom_manifests
      [message.retry_server_manifests, message.retry_current_submanifests,
        message.retry_server_submanifests, message.retry_packs] 0 10 tr0 r)
    (hq : emits is_quiet_event tr tr0)
    (hcv : tr0.filter is_check_versions =
      tr.filter is_check_versions ++ [event.check_versions ret cur srv])
    (hret : 0 ≤ ret) (hlt : cur < srv) : steps_result cfg tr r := by
  obtain ⟨d0, rfl, hk0⟩ := hq
  obtain ⟨hres, d, k, rest, hd, hl, hk, hb, hs⟩ := h
  rw [List.filter_append, List.append_cancel_left_eq] at hcv
  refine ⟨d0 ++ d, by rw [hd, List.append_assoc], ?_, ?_,
    Or.inr ⟨ret, cur, srv, d.filter is_check_versions, ?_,
      Or.inr (Or.inr ⟨hret, hlt, Or.inr hres⟩)⟩⟩
  · intro e he
    rcases List.mem_append.1 he with he | he
    · exact quiet_not_lifecycle e (hk0 e he)
    · exact hl e he
  · rw [List.filter_append, filter_eq_nil_of_class quiet_not_backoff d0 hk0, hb]
    exact ⟨k, rest, by omega, rfl, hs⟩
  · rw [List.filter_append, hcv]
    rfl

/-- Steps 1 to 6 of `main_update` hand over as `steps_result` says. -/
theorem main_update_steps_1_to_6_spec (cfg : config) (c : collaborators)
    (tr : List event) : steps_result cfg tr (main_update_steps_1_to_6 cfg c tr) := by
  unfold main_update_steps_1_to_6
  dsimp only
  generalize c.check_network _ = network
  generalize c.read_subscriptions_alt _ = current_subs
  generalize c.check_versions _ _ _ = v
  generalize c.rm_staging_dir_contents _ _ = rm
  split_ifs with h1 h2 h3 h4
  · refine ⟨_, by simp only [List.append_assoc]; rfl, ?_, ?_, Or.inl ⟨?_, rfl, rfl⟩⟩
    · simp [is_lifecycle_event]
    · simp [List.filter_cons, is_backoff_event, stage_backoffs_nil]
    · simp [List.filter_cons, is_check_versions]
  · refine ⟨_, by simp only [List.append_assoc]; rfl, ?_, ?_,
      Or.inr ⟨v.1, v.2.1, v.2.2, [], ?_, Or.inl ⟨h2, rfl, rfl⟩⟩⟩
    · simp [is_lifecycle_event]
    · simp [List.filter_cons, is_backoff_event, stage_backoffs_nil]
    · simp [List.filter_cons, is_check_versions]
  · refine ⟨_, by simp only [List.append_assoc]; rfl, ?_, ?_,
      Or.inr ⟨v.1, v.2.1, v.2.2, [], ?_,
        Or.inr (Or.inl ⟨not_lt.1 h2, h3, rfl, rfl, rfl, rfl, ?_⟩)⟩⟩
    · simp [is_lifecycle_event]
    · simp [List.filter_cons, is_backoff_event, stage_backoffs_nil]
    · simp [List.filter_cons, is_check_versions]
    · simp [List.filter_cons, is_update_work]
  · refine ⟨_, by simp only [List.append_assoc]; rfl, ?_, ?_,
      Or.inr ⟨v.1, v.2.1, v.2.2, [], ?_, Or.inr (Or.inr ⟨not_lt.1 h2, not_le.1 h3,
        Or.inl ⟨rfl, rfl⟩⟩)⟩⟩
    · simp [is_lifecycle_event]
    · simp [List.filter_cons, is_backoff_event, stage_backoffs_nil]
    · simp [List.filter_cons, is_check_versions]
  · refine steps_result_of_stages (load_current_mom_spec cfg c _ _ _ _ _ _ _ rfl
      (Nat.zero_le _)) ?_ ?_ (not_lt.1 h2) (not_le.1 h3)
    · repeat (first
        | with_reducible exact emits_refl _ _
        | (with_reducible refine emits_append _ ?_ ?_) <;>
            [skip; (simp [is_quiet_event, is_backoff_event, is_lifecycle_event])])
    · simp [List.filter_append, List.filter_cons, is_check_versions]

theorem clean_curl_spec (c : collaborators) (l : main_locals) (lock_fd : Int)
    (tr : List event) :
    (clean_curl c l lock_fd tr).1 = l.ret ∧
    ∃ d, (clean_curl c l lock_fd tr).2 = tr ++ d ∧
      d.filter is_teardown_event =
        [event.telemetry (decide (l.ret ≠ 0)) l.current_version l.server_version l.ret,
          event.swupd_deinit lock_fd l.latest_subs] ∧
      d.filter is_telemetry =
        [event.telemetry (decide (l.ret ≠ 0)) l.current_version l.server_version
          l.ret] ∧
      d.filter is_update_work = [] ∧
      d.filter is_backoff_event = [] ∧
      d.filter is_check_versions = [] := by
  unfold clean_curl
  dsimp only
  generalize c.nonpack _ = nonpack
  refine ⟨rfl, ?_⟩
  split_ifs <;>
    exact ⟨_, by simp only [List.append_assoc]; rfl,
      by simp [List.filter_cons, is_teardown_event],
      by simp [List.filter_cons, is_telemetry],
      by simp [List.filter_cons, is_update_work],
      by simp [List.filter_cons, is_backoff_event],
      by simp [List.filter_cons, is_check_versions]⟩

theorem clean_exit_eq (l : main_locals) (tr : List event) :
    clean_exit l tr = tr ++ [event.list_free_list l.updates.1,
      event.free_manifest l.current_manifest, event.free_manifest l.server_manifest] :=
  rfl

theorem main_update_step_7_spec (cfg : config) (c : collaborators) (l : main_locals)
    (tr : List event) :
    (main_update_step_7 cfg c l tr).1.ret =
      (if (update_loop cfg c l.updates l.manifests tr).1 = 0 then 0
        else if (update_loop cfg c l.updates l.manifests tr).1 < 0 then
          wrap_int (-(update_loop cfg c l.updates l.manifests tr).1)
        else (update_loop cfg c l.updates l.manifests tr).1) ∧
    ∃ d k, (main_update_step_7 cfg c l tr).2 = tr ++ d ∧
      (∀ e ∈ d, is_lifecycle_event e = false) ∧
      d.filter is_check_versions = [] ∧
      k ≤ cfg.MAX_TRIES ∧
      d.filter is_backoff_event = backoff_seq message.starting_download_retry k 0 10 := by
  obtain ⟨d1, hd1, hk1⟩ := update_loop_emits cfg c l.updates l.manifests tr
  obtain ⟨d2, k, hd2, hk, hb⟩ := update_loop_backoff cfg c l.updates l.manifests tr
  have hdd : d1 = d2 := List.append_cancel_left (hd1.symm.trans hd2)
  subst hdd
  have hl1 : ∀ e ∈ d1, is_lifecycle_event e = false :=
    fun e he => update_loop_not_lifecycle e (hk1 e he)
  have hc1 := filter_eq_nil_of_class update_loop_not_check_versions d1 hk1
  unfold main_update_step_7
  dsimp only
  constructor
  · split_ifs with h1 h2
    · exact h1
    · rfl
    · rfl
  · split_ifs with h1 h2
    all_goals
      refine ⟨_, k, by rw [hd1]; simp only [List.append_assoc]; rfl, ?_, ?_, hk, ?_⟩
      · intro e he
        rcases List.mem_append.1 he with he1 | he1
        · exact hl1 e he1
        · clear he
          revert e
          simp [is_lifecycle_event]
      · simp [List.filter_append, hc1, List.filter_cons, is_check_versions]
      · simp [List.filter_append, hb, List.filter_cons, is_backoff_event]

/-- The shape of a run of `main_update`: either `swupd_init` fails and the function
returns at once, or steps 1 to 6 run, then nothing (hand-over at `clean_curl`), or the
frees of `clean_exit`, or step 7 and the frees, and then the code under `clean_curl`. -/
theorem main_update_structure (cfg : config) (c : collaborators) :
    ((main_update_init c).1 ≠ 0 ∧
      main_update cfg c = ((main_update_init c).1,
        (main_update_init c).2.2 ++ [event.printf message.updater_failed_to_initialize])) ∨
    ((main_update_init c).1 = 0 ∧ ∃ ret mid k,
      main_update cfg c =
        clean_curl c
          { (main_update_steps_1_to_6 cfg c (main_update_init c).2.2).2.1 with ret := ret }
          (main_update_init c).2.1
          ((main_update_steps_1_to_6 cfg c (main_update_init c).2.2).2.2 ++ mid) ∧
      (∀ e ∈ mid, is_lifecycle_event e = false) ∧
      mid.filter is_check_versions = [] ∧
      k ≤ cfg.MAX_TRIES ∧
      mid.filter is_backoff_event = backoff_seq message.starting_download_retry k 0 10 ∧
      (((main_update_steps_1_to_6 cfg c (main_update_init c).2.2).1 =
            program_point.clean_curl ∧
          ret = (main_update_steps_1_to_6 cfg c (main_update_init c).2.2).2.1.ret ∧
          mid = []) ∨
        ((main_update_steps_1_to_6 cfg c (main_update_init c).2.2).1 =
            program_point.clean_exit ∧
          ret = (main_update_steps_1_to_6 cfg c (main_update_init c).2.2).2.1.ret) ∨
        ((main_update_steps_1_to_6 cfg c (main_update_init c).2.2).1 =
            program_point.line_562 ∧
          ret =
            if (update_loop cfg c
                (main_update_steps_1_to_6 cfg c (main_update_init c).2.2).2.1.updates
                (main_update_steps_1_to_6 cfg c (main_update_init c).2.2).2.1.manifests
                (main_update_steps_1_to_6 cfg c (main_update_init c).2.2).2.2).1 = 0
            then 0
            else if (update_loop cfg c
                (main_update_steps_1_to_6 cfg c (main_update_init c).2.2).2.1.updates
                (main_update_steps_1_to_6 cfg c (main_update_init c).2.2).2.1.manifests
                (main_update_steps_1_to_6 cfg c (main_update_init c).2.2).2.2).1 < 0
            then wrap_int (-(update_loop cfg c
                (main_update_steps_1_to_6 cfg c (main_update_init c).2.2).2.1.updates
                (main_update_steps_1_to_6 cfg c (main_update_init c).2.2).2.1.manifests
                (main_update_steps_1_to_6 cfg c (main_update_init c).2.2).2.2).1)
            else (update_loop cfg c
                (main_update_steps_1_to_6 cfg c (main_update_init c).2.2).2.1.updates
                (main_update_steps_1_to_6 cfg c (main_update_init c).2.2).2.1.manifests
                (main_update_steps_1_to_6 cfg c (main_update_init c).2.2).2.2).1))) := by
  unfold main_update
  dsimp only
  by_cases h0 : (main_update_init c).1 = 0
  · right
    refine ⟨h0, ?_⟩
    rw [if_neg (not_not.2 h0)]
    rcases hs : main_update_steps_1_to_6 cfg c (main_update_init c).2.2 with ⟨pt, l, tr1⟩
    cases pt with
    | clean_curl =>
      exact ⟨l.ret, [], 0, by simp, by simp, rfl, Nat.zero_le _, rfl,
        Or.inl ⟨rfl, rfl, rfl⟩⟩
    | clean_exit =>
      refine ⟨l.ret, [event.list_free_list l.updates.1,
        event.free_manifest l.current_manifest, event.free_manifest l.server_manifest], 0,
        rfl, by simp [is_lifecycle_event], by simp [List.filter_cons, is_check_versions],
        Nat.zero_le _, by simp [List.filter_cons, is_backoff_event, backoff_seq],
        Or.inr (Or.inl ⟨rfl, rfl⟩)⟩
    | line_562 =>
      obtain ⟨hret, d, k, hd, hl, hc, hk, hb⟩ := main_update_step_7_spec cfg c l tr1
      refine ⟨(main_update_step_7 cfg c l tr1).1.ret,
        d ++ [event.list_free_list l.updates.1,
          event.free_manifest l.current_manifest, event.free_manifest l.server_manifest],
        k, ?_, ?_, ?_, hk, ?_, Or.inr (Or.inr ⟨rfl, hret⟩)⟩
      · dsimp only
        rw [clean_exit_eq, hd, List.append_assoc]
        rfl
      · intro e he
        rcases List.mem_append.1 he with he1 | he1
        · exact hl e he1
        · clear he
          revert e
          simp [is_lifecycle_event]
      · simp [List.filter_append, hc, List.filter_cons, is_check_versions]
      · simp [List.filter_append, hb, List.filter_cons, is_backoff_event]
  · left
    exact ⟨h0, by rw [if_pos h0]⟩

/-! ## Teardown and telemetry -/

theorem filter_eq_nil_of_forall {p : event → Bool} (d : List event)
    (h : ∀ e ∈ d, p e = false) : d.filter p = [] := by
  rw [List.filter_eq_nil_iff]
  intro e he
  simp [h e he]

theorem main_update_init_eq (c : collaborators) :
    main_update_init c = ((c.swupd_init [event.srand_time]).1,
      (c.swupd_init [event.srand_time]).2,
      [event.srand_time, event.swupd_init (c.swupd_init [event.srand_time]).1
        (c.swupd_init [event.srand_time]).2]) :=
  rfl

theorem init_failure_excluded (cfg : config) (c : collaborators)
    (hinit : ∃ lock_fd, event.swupd_init 0 lock_fd ∈ (main_update cfg c).2)
    (h0 : (main_update_init c).1 ≠ 0)
    (heq : main_update cfg c = ((main_update_init c).1,
      (main_update_init c).2.2 ++ [event.printf message.updater_failed_to_initialize])) :
    False := by
  obtain ⟨fd, hfd⟩ := hinit
  rw [heq, main_update_init_eq] at hfd
  rw [main_update_init_eq] at h0
  simp only [List.cons_append, List.nil_append, List.mem_cons, List.mem_singleton,
    event.swupd_init.injEq, List.not_mem_nil, or_false, reduceCtorEq, false_or] at hfd
  exact h0 hfd.1.symm

/-- C9 (amended).  On every run of `main_update` in which `swupd_init` succeeds, the trace
holds exactly one telemetry record and exactly one `swupd_deinit` call, in this order; the
result field of the record is the value `main_update` returns, and `swupd_deinit` gets the
lock file descriptor that `swupd_init` returned. -/
theorem main_update_one_telemetry_record (cfg : config) (c : collaborators)
    (hinit : ∃ lock_fd, event.swupd_init 0 lock_fd ∈ (main_update cfg c).2) :
    ∃ critical current_version server_version lock_fd subs,
      event.swupd_init 0 lock_fd ∈ (main_update cfg c).2 ∧
      (main_update cfg c).2.filter is_teardown_event =
        [event.telemetry critical current_version server_version (main_update cfg c).1,
          event.swupd_deinit lock_fd subs] := by
  rcases main_update_structure cfg c with ⟨h0, heq⟩ | ⟨h0, ret, mid, k, heq, hl, _, _, _, _⟩
  · exact absurd (init_failure_excluded cfg c hinit h0 heq) id
  · obtain ⟨d, hd, hld, _, _⟩ :=
      main_update_steps_1_to_6_spec cfg c (main_update_init c).2.2
    obtain ⟨hret, dc, hdc, htd, _, _, _, _⟩ := clean_curl_spec c
      { (main_update_steps_1_to_6 cfg c (main_update_init c).2.2).2.1 with ret := ret }
      (main_update_init c).2.1
      ((main_update_steps_1_to_6 cfg c (main_update_init c).2.2).2.2 ++ mid)
    have h1 : (main_update cfg c).1 = ret := by rw [heq, hret]
    have h2 : (main_update cfg c).2 = (main_update_init c).2.2 ++ d ++ mid ++ dc := by
      rw [heq, hdc, hd]
    refine ⟨decide (ret ≠ 0),
      (main_update_steps_1_to_6 cfg c (main_update_init c).2.2).2.1.current_version,
      (main_update_steps_1_to_6 cfg c (main_update_init c).2.2).2.1.server_version,
      (main_update_init c).2.1,
      (main_update_steps_1_to_6 cfg c (main_update_init c).2.2).2.1.latest_subs, ?_, ?_⟩
    · rw [h2, main_update_init_eq]
      rw [main_update_init_eq] at h0
      dsimp only at h0 ⊢
      rw [h0]
      simp
    · rw [h2, h1, List.filter_append, List.filter_append, List.filter_append, htd,
        filter_eq_nil_of_forall d (fun e he => not_lifecycle_not_teardown e (hld e he)),
        filter_eq_nil_of_forall mid (fun e he => not_lifecycle_not_teardown e (hl e he))]
      rw [main_update_init_eq]
      simp [List.filter_cons, is_teardown_event]

/-! ## The back-off of every retry stage -/

/-- C6.  Provided no doubling of the timeout leaves the range of `int`
(`10 * 2 ^ MAX_TRIES < 2 ^ 31`): in every run of `update_loop` the back-off events are,
for some `n ≤ MAX_TRIES`, the sleeps of 10, 20, 40, ... seconds, the `k`-th of
`10 * 2 ^ (k - 1)` seconds and followed by "Starting download retry #k"; and in every run
of `main_update` the back-off events are those of its six retry stages in order (the two
manifests of manifests, the two sets of sub-manifests, the packs, the download loop), each
stage starting again at 10 seconds and retry #1 and retrying at most `MAX_TRIES` times. -/
theorem backoff_is_geometric (cfg : config) (c : collaborators)
    (hmax : 10 * 2 ^ cfg.MAX_TRIES < 2 ^ 31) :
    (∀ (updates_list : List file × List file)
        (manifests : Option manifest × Option manifest) (tr : List event),
      ∃ d n, (update_loop cfg c updates_list manifests tr).2 = tr ++ d ∧
        n ≤ cfg.MAX_TRIES ∧
        d.filter is_backoff_event =
          backoff_schedule message.starting_download_retry n) ∧
    ∃ n1 n2 n3 n4 n5 n6,
      n1 ≤ cfg.MAX_TRIES ∧ n2 ≤ cfg.MAX_TRIES ∧ n3 ≤ cfg.MAX_TRIES ∧
      n4 ≤ cfg.MAX_TRIES ∧ n5 ≤ cfg.MAX_TRIES ∧ n6 ≤ cfg.MAX_TRIES ∧
      (main_update cfg c).2.filter is_backoff_event =
        backoff_schedule message.retry_mom_manifests n1 ++
        backoff_schedule message.retry_server_manifests n2 ++
        backoff_schedule message.retry_current_submanifests n3 ++
        backoff_schedule message.retry_server_submanifests n4 ++
        backoff_schedule message.retry_packs n5 ++
        backoff_schedule message.starting_download_retry n6 := by
  constructor
  · intro updates_list manifests tr
    obtain ⟨d, k, hd, hk, hb⟩ := update_loop_backoff cfg c updates_list manifests tr
    exact ⟨d, k, hd, hk, by rw [hb, backoff_seq_eq_schedule _ _ _ hmax hk]⟩
  · rcases main_update_structure cfg c with
      ⟨_, heq⟩ | ⟨_, ret, mid, k6, heq, _, _, hk6, hb6, _⟩
    · refine ⟨0, 0, 0, 0, 0, 0, Nat.zero_le _, Nat.zero_le _, Nat.zero_le _,
        Nat.zero_le _, Nat.zero_le _, Nat.zero_le _, ?_⟩
      rw [heq, main_update_init_eq]
      simp [List.filter_cons, is_backoff_event, backoff_schedule]
    · obtain ⟨d, hd, _, hst, _⟩ :=
        main_update_steps_1_to_6_spec cfg c (main_update_init c).2.2
      obtain ⟨_, dc, hdc, _, _, _, hbc, _⟩ := clean_curl_spec c
        { (main_update_steps_1_to_6 cfg c (main_update_init c).2.2).2.1 with ret := ret }
        (main_update_init c).2.1
        ((main_update_steps_1_to_6 cfg c (main_update_init c).2.2).2.2 ++ mid)
      have h2 : (main_update cfg c).2 = (main_update_init c).2.2 ++ d ++ mid ++ dc := by
        rw [heq, hdc, hd]
      obtain ⟨k1, r1, hk1, e1, k2, r2, hk2, e2, k3, r3, hk3, e3, k4, r4, hk4, e4, k5, r5,
        hk5, e5, e6⟩ := hst
      refine ⟨k1, k2, k3, k4, k5, k6, hk1, hk2, hk3, hk4, hk5, hk6, ?_⟩
      rw [h2, List.filter_append, List.filter_append, List.filter_append, hbc, hb6, e1, e2,
        e3, e4, e5, e6, main_update_init_eq,
        backoff_seq_eq_schedule _ _ _ hmax hk1, backoff_seq_eq_schedule _ _ _ hmax hk2,
        backoff_seq_eq_schedule _ _ _ hmax hk3, backoff_seq_eq_schedule _ _ _ hmax hk4,
        backoff_seq_eq_schedule _ _ _ hmax hk5, backoff_seq_eq_schedule _ _ _ hmax hk6]
      simp [List.filter_cons, is_backoff_event]

/-! ## The no-op run and the exit status -/

/-- The `check_versions` events of a run of `main_update` in which `swupd_init` succeeds
are those of steps 1 to 6. -/
theorem main_update_check_versions (cfg : config) (c : collaborators)
    (h0 : (main_update_init c).1 = 0) (d : List event)
    (hd : (main_update_steps_1_to_6 cfg c (main_update_init c).2.2).2.2 =
      (main_update_init c).2.2 ++ d) :
    (main_update cfg c).2.filter is_check_versions = d.filter is_check_versions := by
  rcases main_update_structure cfg c with ⟨h, _⟩ | ⟨_, ret, mid, k, heq, _, hc, _, _, _⟩
  · exact absurd h0 h
  · obtain ⟨_, dc, hdc, _, _, _, _, hcc⟩ := clean_curl_spec c
      { (main_update_steps_1_to_6 cfg c (main_update_init c).2.2).2.1 with ret := ret }
      (main_update_init c).2.1
      ((main_update_steps_1_to_6 cfg c (main_update_init c).2.2).2.2 ++ mid)
    rw [heq, hdc, hd, List.filter_append, List.filter_append, List.filter_append, hcc, hc,
      main_update_init_eq]
    simp [List.filter_cons, is_check_versions]

/-- C7.  On every run of `main_update` in which `swupd_init` succeeds, the network check
succeeds, and the `check_versions` of line 378 (the first of the trace) succeeds with a
server version that is not newer than the current version: `main_update` returns 0, no
manifest is loaded, no pack or file is downloaded, nothing is staged or renamed, and the
trace holds exactly one telemetry record, whose result is 0. -/
theorem main_update_no_op (cfg : config) (c : collaborators) (ret cur srv : Int)
    (hinit : ∃ lock_fd, event.swupd_init 0 lock_fd ∈ (main_update cfg c).2)
    (hnet : event.check_network true ∈ (main_update cfg c).2)
    (hver : ((main_update cfg c).2.filter is_check_versions).head? =
      some (event.check_versions ret cur srv))
    (hret : 0 ≤ ret) (hle : srv ≤ cur) :
    (main_update cfg c).1 = 0 ∧
    (main_update cfg c).2.filter is_update_work = [] ∧
    (main_update cfg c).2.filter is_telemetry = [event.telemetry false cur srv 0] := by
  have _ := hnet
  rcases main_update_structure cfg c with
    ⟨h0, heq⟩ | ⟨h0, r, mid, k, heq, hl, hc, _, _, hpt⟩
  · exact absurd (init_failure_excluded cfg c hinit h0 heq) id
  · obtain ⟨d, hd, hld, _, hcases⟩ :=
      main_update_steps_1_to_6_spec cfg c (main_update_init c).2.2
    rw [main_update_check_versions cfg c h0 d hd] at hver
    rcases hcases with ⟨hnone, _, _⟩ | ⟨ret1, cur1, srv1, rest, hcv, hsub⟩
    · rw [hnone] at hver
      cases hver
    · rw [hcv] at hver
      simp only [List.head?_cons, Option.some.injEq, event.check_versions.injEq] at hver
      obtain ⟨rfl, rfl, rfl⟩ := hver
      rcases hsub with ⟨hneg, _, _⟩ | ⟨_, _, hcc, hr0, hcur, hsrv, hwork⟩ | ⟨_, hlt, _⟩
      · omega
      · have hmid : r = 0 ∧ mid = [] := by
          rcases hpt with ⟨_, hr, hm⟩ | ⟨hp, _⟩ | ⟨hp, _⟩
          · exact ⟨hr.trans hr0, hm⟩
          · rw [hcc] at hp
            cases hp
          · rw [hcc] at hp
            cases hp
        obtain ⟨rfl, rfl⟩ := hmid
        obtain ⟨hret1, dc, hdc, _, htel, hwc, _, _⟩ := clean_curl_spec c
          { (main_update_steps_1_to_6 cfg c (main_update_init c).2.2).2.1 with ret := 0 }
          (main_update_init c).2.1
          ((main_update_steps_1_to_6 cfg c (main_update_init c).2.2).2.2 ++ [])
        refine ⟨by rw [heq, hret1], ?_, ?_⟩
        · rw [heq, hdc, hd, List.append_nil, List.filter_append, List.filter_append, hwc,
            hwork, main_update_init_eq]
          simp [List.filter_cons, is_update_work]
        · have hi : (main_update_init c).2.2.filter is_telemetry = [] := by
            rw [main_update_init_eq]
            simp [List.filter_cons, is_telemetry]
          rw [heq, hdc, hd, List.append_nil, List.filter_append, List.filter_append, htel,
            filter_eq_nil_of_forall d
              (fun e he => not_lifecycle_not_telemetry e (hld e he)), hi]
          simp [hcur, hsrv]
      · omega

theorem stage_content_while_ret_range (c : collaborators)
    (hc : ∀ tr f m, -2 ^ 31 < c.do_staging tr f m) (updates : List file)
    (m : Option manifest) (tr : List event) :
    -2 ^ 31 < (stage_content_while c updates m tr).1 := by
  induction updates generalizing tr with
  | nil =>
    unfold stage_content_while
    norm_num
  | cons f iter ih =>
    unfold stage_content_while
    dsimp only
    split_ifs with h1 h2
    · exact ih tr
    · exact hc _ _ _
    · exact ih _

theorem TRY_DOWNLOAD_returned_range (cfg : config) (c : collaborators)
    (hc : ∀ tr pipelining, -2 ^ 31 < c.start_full_download tr pipelining)
    (updates : List file) :
    ∀ (n : Nat) (failed : List file) (retries : Nat) (timeout : Int) (tr : List event),
      cfg.MAX_TRIES - retries = n → ∀ err,
      (TRY_DOWNLOAD cfg c updates failed retries timeout tr).1 = download_exit.returned err →
      -2 ^ 31 < err := by
  intro n
  induction n using Nat.strong_induction_on with
  | _ n ih =>
    intro failed retries timeout tr hn err
    rw [TRY_DOWNLOAD]
    simp only [increment_retries]
    split_ifs with h1 h2 h3 h4
    · intro h
      cases h
      exact hc _ _
    · exact ih (cfg.MAX_TRIES - (retries + 1)) (by omega) _ _ _ _ rfl err
    · intro h
      cases h
    · exact ih (cfg.MAX_TRIES - (retries + 1)) (by omega) _ _ _ _ rfl err
    · intro h
      cases h

/-- When no collaborator returns `INT_MIN`, neither does `update_loop`. -/
theorem update_loop_ret_range (cfg : config) (c : collaborators) (hc : codes_negatable c)
    (updates_list : List file × List file) (manifests : Option manifest × Option manifest)
    (tr : List event) : -2 ^ 31 < (update_loop cfg c updates_list manifests tr).1 := by
  obtain ⟨hstart, hstage, hrename⟩ := hc
  unfold update_loop
  dsimp only
  have hret := TRY_DOWNLOAD_returned_range cfg c hstart updates_list.1 _ [] 0 10 tr rfl
  rcases hd : TRY_DOWNLOAD cfg c updates_list.1 [] 0 10 tr with ⟨ex, tr1⟩
  rw [hd] at hret
  cases ex with
  | returned err => exact hret err rfl
  | fell_through failed retries timeout =>
    dsimp only
    unfold update_loop_after_download
    by_cases h1 : retries ≥ cfg.MAX_TRIES
    · rw [if_pos h1]
      norm_num
    · rw [if_neg h1]
      have hmix : ∀ code, (update_loop_mix_download c updates_list.1 tr1).1 = some code →
          -2 ^ 31 < code := by
        intro code
        unfold update_loop_mix_download
        dsimp only
        split_ifs with h2 h3 h4
        · intro h
          cases h
          exact hstart _ _
        · intro h
          cases h
          norm_num
        · intro h
          cases h
        · intro h
          cases h
      rcases hm : update_loop_mix_download c updates_list.1 tr1 with ⟨code, tr2⟩
      rw [hm] at hmix
      cases code with
      | some code => exact hmix code rfl
      | none =>
        dsimp only
        by_cases h2 : cfg.download_only = true
        · rw [if_pos h2]
          norm_num
        · rw [if_neg h2]
          unfold update_loop_critical_section
          dsimp only
          have hs : -2 ^ 31 < (stage_content c updates_list.1 manifests.1 tr2).1 :=
            stage_content_while_ret_range c hstage _ _ _
          split_ifs
          · exact hs
          · rw [update_loop_commit_eq]
            exact hrename _ _
          · rw [update_loop_commit_eq]
            exact hrename _ _

/-- C8.  On every run of `main_update` in which `swupd_init` succeeds, with positive
`EXIT_FAILURE`, `EMOM_NOTFOUND`, `ERECURSE_MANIFEST`, `EMANIFEST_LOAD` and
`ENOSWUPDSERVER` and with collaborators that never return `INT_MIN`: the exit status is 0
exactly when the system was already up to date or `update_loop` returned 0; it is
positive whenever it is not 0; and when `update_loop` returns a negative `r` it is
`-r`. -/
theorem main_update_exit_status (cfg : config) (c : collaborators)
    (hpos : 0 < cfg.EXIT_FAILURE ∧ 0 < cfg.EMOM_NOTFOUND ∧ 0 < cfg.ERECURSE_MANIFEST ∧
      0 < cfg.EMANIFEST_LOAD ∧ 0 < cfg.ENOSWUPDSERVER)
    (hinit : ∃ lock_fd, event.swupd_init 0 lock_fd ∈ (main_update cfg c).2)
    (hcodes : codes_negatable c) :
    ((main_update cfg c).1 = 0 ↔
      already_up_to_date (main_update cfg c).2 ∨ update_loop_result cfg c = some 0) ∧
    ((main_update cfg c).1 ≠ 0 → 0 < (main_update cfg c).1) ∧
    (∀ r, update_loop_result cfg c = some r → r < 0 → (main_update cfg c).1 = -r) := by
  obtain ⟨hp1, hp2, hp3, hp4, hp5⟩ := hpos
  rcases main_update_structure cfg c with
    ⟨h0, heq⟩ | ⟨h0, r, mid, k, heq, _, _, _, _, hpt⟩
  · exact absurd (init_failure_excluded cfg c hinit h0 heq) id
  · obtain ⟨d, hd, _, _, hcases⟩ :=
      main_update_steps_1_to_6_spec cfg c (main_update_init c).2.2
    have hmain : (main_update cfg c).1 = r := by
      rw [heq, (clean_curl_spec c _ _ _).1]
    have hutd : already_up_to_date (main_update cfg c).2 ↔
        ∃ ret cur srv rest,
          d.filter is_check_versions = event.check_versions ret cur srv :: rest ∧
          0 ≤ ret ∧ srv ≤ cur := by
      unfold already_up_to_date
      rw [main_update_check_versions cfg c h0 d hd]
      constructor
      · rintro ⟨ret, cur, srv, hh, h1, h2⟩
        cases hf : d.filter is_check_versions with
        | nil =>
          rw [hf] at hh
          cases hh
        | cons x rest =>
          rw [hf] at hh
          simp only [List.head?_cons, Option.some.injEq] at hh
          exact ⟨ret, cur, srv, rest, by rw [hh], h1, h2⟩
      · rintro ⟨ret, cur, srv, rest, hh, h1, h2⟩
        exact ⟨ret, cur, srv, by rw [hh]; rfl, h1, h2⟩
    have hrange := update_loop_ret_range cfg c hcodes
    rw [hmain, hutd]
    unfold update_loop_result
    rcases hs : main_update_steps_1_to_6 cfg c (main_update_init c).2.2 with ⟨pt, l, tr1⟩
    rw [hs] at hpt hcases
    unfold stage_result_ok at hcases
    dsimp only at hpt hcases ⊢
    cases pt with
    | clean_curl =>
      have hr : r = l.ret := by
        rcases hpt with ⟨_, hr, _⟩ | ⟨hp, _⟩ | ⟨hp, _⟩
        · exact hr
        · cases hp
        · cases hp
      subst hr
      dsimp only
      rcases hcases with ⟨hnone, _, hret⟩ | ⟨ret, cur, srv, rest, hcv, hsub⟩
      · refine ⟨⟨fun h => by omega, ?_⟩, fun _ => by omega, fun r h => by cases h⟩
        rintro (⟨_, _, _, _, hh, _⟩ | h)
        · rw [hnone] at hh
          cases hh
        · cases h
      · have hinj : ∀ ret2 cur2 srv2 rest2,
            d.filter is_check_versions = event.check_versions ret2 cur2 srv2 :: rest2 →
            ret2 = ret ∧ cur2 = cur ∧ srv2 = srv := by
          intro ret2 cur2 srv2 rest2 hh
          rw [hcv] at hh
          simp only [List.cons.injEq, event.check_versions.injEq] at hh
          exact ⟨hh.1.1.symm, hh.1.2.1.symm, hh.1.2.2.symm⟩
        rcases hsub with ⟨hneg, _, hret⟩ | ⟨h1, h2, _, hret, _⟩ |
          ⟨_, hlt, ⟨_, hret⟩ | ⟨hp, _⟩ | hp⟩
        · refine ⟨⟨fun h => by omega, ?_⟩, fun _ => by omega, fun r h => by cases h⟩
          rintro (⟨ret2, cur2, srv2, rest2, hh, h1, _⟩ | h)
          · obtain ⟨rfl, _, _⟩ := hinj _ _ _ _ hh
            omega
          · cases h
        · exact ⟨⟨fun _ => Or.inl ⟨ret, cur, srv, rest, hcv, h1, h2⟩, fun _ => hret⟩,
            fun h => absurd hret h, fun r h => by cases h⟩
        · refine ⟨⟨fun h => by omega, ?_⟩, fun _ => by omega, fun r h => by cases h⟩
          rintro (⟨ret2, cur2, srv2, rest2, hh, _, h2⟩ | h)
          · obtain ⟨_, rfl, rfl⟩ := hinj _ _ _ _ hh
            omega
          · cases h
        · cases hp
        · cases hp
    | clean_exit =>
      have hr : r = l.ret := by
        rcases hpt with ⟨hp, _⟩ | ⟨_, hr⟩ | ⟨hp, _⟩
        · cases hp
        · exact hr
        · cases hp
      subst hr
      dsimp only
      rcases hcases with ⟨_, hp, _⟩ | ⟨ret, cur, srv, rest, hcv, hsub⟩
      · cases hp
      · rcases hsub with ⟨_, hp, _⟩ | ⟨_, _, hp, _⟩ | ⟨_, hlt, ⟨hp, _⟩ | ⟨_, hret⟩ | hp⟩
        · cases hp
        · cases hp
        · cases hp
        · refine ⟨⟨fun h => by omega, ?_⟩, fun _ => by omega, fun r h => by cases h⟩
          rintro (⟨ret2, cur2, srv2, rest2, hh, _, h2⟩ | h)
          · rw [hcv] at hh
            simp only [List.cons.injEq, event.check_versions.injEq] at hh
            omega
          · cases h
        · cases hp
    | line_562 =>
      have hr : r = if (update_loop cfg c l.updates l.manifests tr1).1 = 0 then 0
          else if (update_loop cfg c l.updates l.manifests tr1).1 < 0 then
            wrap_int (-(update_loop cfg c l.updates l.manifests tr1).1)
          else (update_loop cfg c l.updates l.manifests tr1).1 := by
        rcases hpt with ⟨hp, _⟩ | ⟨hp, _⟩ | ⟨_, hr⟩
        · cases hp
        · cases hp
        · exact hr
      have hu := hrange l.updates l.manifests tr1
      have hnotutd : ¬ ∃ ret cur srv rest,
          d.filter is_check_versions = event.check_versions ret cur srv :: rest ∧
          0 ≤ ret ∧ srv ≤ cur := by
        rintro ⟨ret2, cur2, srv2, rest2, hh, _, h2⟩
        rcases hcases with ⟨_, hp, _⟩ | ⟨ret, cur, srv, rest, hcv, hsub⟩
        · cases hp
        · rw [hcv] at hh
          simp only [List.cons.injEq, event.check_versions.injEq] at hh
          rcases hsub with ⟨_, hp, _⟩ | ⟨_, _, hp, _⟩ | ⟨_, hlt, _⟩
          · cases hp
          · cases hp
          · omega
      dsimp only
      simp only [Option.some.injEq]
      generalize (update_loop cfg c l.updates l.manifests tr1).1 = u at hr hu
      have hw : u < 0 → wrap_int (-u) = -u := fun hneg =>
        wrap_int_eq (-u) (by norm_num at hu ⊢; omega) (by norm_num at hu ⊢; omega)
      refine ⟨⟨?_, ?_⟩, ?_, ?_⟩
      · intro h
        right
        rw [h] at hr
        split_ifs at hr with h1 h2
        · exact h1
        · rw [hw h2] at hr
          omega
        · omega
      · rintro (h | h)
        · exact absurd h hnotutd
        · rw [hr, if_pos h]
      · intro hne
        rw [hr] at hne ⊢
        split_ifs at hne ⊢ with h1 h2
        · exact absurd rfl hne
        · rw [hw h2]
          omega
        · omega
      · intro r' hr' hneg
        subst hr'
        rw [hr, if_neg (by omega), if_pos hneg, hw hneg]

/-! ## `main_update` on the sample inputs -/

theorem swupd_init_in_trace (cfg : config) (c : collaborators)
    (h0 : (c.swupd_init [event.srand_time]).1 = 0) :
    ∃ lock_fd, event.swupd_init 0 lock_fd ∈ (main_update cfg c).2 := by
  rcases main_update_structure cfg c with ⟨h, _⟩ | ⟨_, ret, mid, k, heq, _⟩
  · exact absurd h0 h
  · obtain ⟨d, hd, _⟩ := main_update_steps_1_to_6_spec cfg c (main_update_init c).2.2
    obtain ⟨_, dc, hdc, _⟩ := clean_curl_spec c
      { (main_update_steps_1_to_6 cfg c (main_update_init c).2.2).2.1 with ret := ret }
      (main_update_init c).2.1
      ((main_update_steps_1_to_6 cfg c (main_update_init c).2.2).2.2 ++ mid)
    refine ⟨(c.swupd_init [event.srand_time]).2, ?_⟩
    rw [heq, hdc, hd, main_update_init_eq]
    dsimp only
    rw [h0]
    simp

/-- The run of `main_update` when the server is at the version of the system. -/
theorem main_update_up_to_date_run :
    main_update sample_config up_to_date =
      (0,
        [event.srand_time, event.swupd_init 0 3, event.init_timelist, event.clock_gettime,
          event.grabtime_start "Main Update", event.check_network true,
          event.printf message.update_started,
          event.grabtime_start "Update Step 1: get versions",
          event.read_subscriptions_alt [sub.mk "os-core" 100 100],
          event.check_versions 0 100 100,
          event.printf (message.version_not_newer 100 100),
          event.grabtime_stop, event.clock_gettime, event.telemetry false 100 100 0,
          event.print_time_stats, event.swupd_deinit 3 [],
          event.printf (message.already_up_to_date 100)]) := by
  simp [main_update, main_update_init, main_update_steps_1_to_6, clean_curl, up_to_date,
    all_succeed, sample_config, EXIT_SUCCESS]

/-- C7 on the sample run in which the server is at the version of the system. -/
theorem main_update_no_op_witness :
    (main_update sample_config up_to_date).1 = 0 ∧
    (main_update sample_config up_to_date).2.filter is_update_work = [] ∧
    (main_update sample_config up_to_date).2.filter is_telemetry =
      [event.telemetry false 100 100 0] :=
  main_update_no_op sample_config up_to_date 0 100 100
    ⟨3, by rw [main_update_up_to_date_run]; simp⟩
    (by rw [main_update_up_to_date_run]; simp)
    (by rw [main_update_up_to_date_run]; simp [List.filter_cons, is_check_versions])
    (by decide) (by decide)

/-- C6 on a sample run with `MAX_TRIES = 3`, in which the download loop retries three
times. -/
theorem backoff_is_geometric_witness :
    ∃ n1 n2 n3 n4 n5 n6,
      n1 ≤ 3 ∧ n2 ≤ 3 ∧ n3 ≤ 3 ∧ n4 ≤ 3 ∧ n5 ≤ 3 ∧ n6 ≤ 3 ∧
      (main_update sample_config third_retry_succeeds).2.filter is_backoff_event =
        backoff_schedule message.retry_mom_manifests n1 ++
        backoff_schedule message.retry_server_manifests n2 ++
        backoff_schedule message.retry_current_submanifests n3 ++
        backoff_schedule message.retry_server_submanifests n4 ++
        backoff_schedule message.retry_packs n5 ++
        backoff_schedule message.starting_download_retry n6 :=
  (backoff_is_geometric sample_config third_retry_succeeds
    (by norm_num [sample_config])).2

/-- C8 on the sample run in which nothing fails. -/
theorem main_update_exit_status_witness :
    ((main_update sample_config all_succeed).1 = 0 ↔
      already_up_to_date (main_update sample_config all_succeed).2 ∨
        update_loop_result sample_config all_succeed = some 0) ∧
    ((main_update sample_config all_succeed).1 ≠ 0 →
      0 < (main_update sample_config all_succeed).1) ∧
    (∀ r, update_loop_result sample_config all_succeed = some r → r < 0 →
      (main_update sample_config all_succeed).1 = -r) :=
  main_update_exit_status sample_config all_succeed
    (by simp [sample_config])
    (swupd_init_in_trace sample_config all_succeed rfl)
    ⟨fun _ _ => by simp [all_succeed], fun _ _ _ => by simp [all_succeed],
      fun _ _ => by simp [all_succeed]⟩

/-- C9 (counterexample).  When `swupd_init` fails, `main_update` returns its code at
once: the trace holds no telemetry record and no `swupd_deinit`. -/
theorem main_update_init_failure_skips_teardown :
    main_update sample_config init_fails =
      (1, [event.srand_time, event.swupd_init 1 (-1),
        event.printf message.updater_failed_to_initialize]) := by
  simp [main_update, main_update_init, init_fails, all_succeed]

/-- C9 (amended) on the sample run in which nothing fails. -/
theorem main_update_one_telemetry_record_witness :
    ∃ critical current_version server_version lock_fd subs,
      event.swupd_init 0 lock_fd ∈ (main_update sample_config all_succeed).2 ∧
      (main_update sample_config all_succeed).2.filter is_teardown_event =
        [event.telemetry critical current_version server_version
            (main_update sample_config all_succeed).1,
          event.swupd_deinit lock_fd subs] :=
  main_update_one_telemetry_record sample_config all_succeed
    (swupd_init_in_trace sample_config all_succeed rfl)

end Swupd
